import Mathlib

/-!
Verification development for the Surn compiler front end.

This file gives a shallow embedding, in Lean 4, of the lexer, token stream,
recursive-descent parser and diagnostics engine of the Surn source-to-source
compiler, translated function by function from the Rust sources, and proves
(or refutes) the behavioural claims made about them.

Conventions used throughout:
  * Rust `usize` becomes `Nat`; `Range<usize>` becomes `RangeN` (field `end`
    is spelled `stop`, since `end` is reserved in Lean).
  * In-place mutation of a cursor / token stream / parser is modelled by
    explicit state passing: a Rust method `fn f(&mut self) -> T` becomes a
    Lean function `St -> T × St` (or `Except PErr (T × St)` for code that can
    report an error or exit).
  * The fail-fast `create_report!` macro (which prints a report and calls
    `process::exit(1)`) is modelled by the error value `PErr.report`;
    a Rust `panic!` / `unwrap()` on `None` is modelled by `PErr.panicked`.
  * Recursive productions take an explicit fuel argument so that every
    definition is a structurally terminating, executable `def`; exhausting
    the fuel yields the artificial error `PErr.outOfFuel`, which is never
    reached for the concrete inputs evaluated below.
-/

namespace Surn

/-- A `std::ops::Range<usize>`: half-open interval `start..stop`. -/
structure RangeN where
  start : Nat
  stop : Nat
deriving Repr, DecidableEq

/-! ## Keywords (`src/lexer/keyword.rs`) -/

/-- Keyword table bound from `src/lexer/keyword.rs`. -/
def MAX_KEYWORD_LENGTH : Nat := 5

/-- The keyword enum of `src/lexer/keyword.rs` (`Type` is spelled `Typ`,
`Function` corresponds to the source token `fn`).  The parser
(`generator.rs`) additionally references `KeyWord::Extends` and
`KeyWord::Implements`, variants that the provided `keyword.rs` does not
declare; they are included here so the parser translates as written, but
`from_string` maps no word to them (matching the provided table), so the
tokenizer never emits them. -/
inductive KeyWord where
  | Namespace | Const | Var | Class | Interface | Typ | Function
  | If | Else | Public | Private | Protected | Static | Return
  | Break | Continue | For | While | Do | New | Drop | Use
  | Extends | Implements
deriving Repr, DecidableEq

/-- `KeyWord::from_string`. -/
def KeyWord.from_string (v : String) : Option KeyWord :=
  match v with
  | "namespace" => some .Namespace
  | "const" => some .Const
  | "var" => some .Var
  | "class" => some .Class
  | "interface" => some .Interface
  | "type" => some .Typ
  | "fn" => some .Function
  | "if" => some .If
  | "else" => some .Else
  | "pub" => some .Public
  | "priv" => some .Private
  | "prot" => some .Protected
  | "static" => some .Static
  | "return" => some .Return
  | "break" => some .Break
  | "continue" => some .Continue
  | "for" => some .For
  | "while" => some .While
  | "do" => some .Do
  | "new" => some .New
  | "drop" => some .Drop
  | "use" => some .Use
  | _ => none

/-- `KeyWord::to_string`. -/
def KeyWord.to_string : KeyWord → String
  | .Namespace => "namespace"
  | .Const => "const"
  | .Var => "var"
  | .Class => "class"
  | .Interface => "interface"
  | .Typ => "type"
  | .Function => "fn"
  | .If => "if"
  | .Else => "else"
  | .Public => "pub"
  | .Private => "priv"
  | .Protected => "prot"
  | .Static => "static"
  | .Return => "return"
  | .Break => "break"
  | .Continue => "continue"
  | .For => "for"
  | .While => "while"
  | .Do => "do"
  | .New => "new"
  | .Drop => "drop"
  | .Use => "use"
  | .Extends => "extends"
  | .Implements => "implements"

/-- `KeyWord::is_visibility`. -/
def KeyWord.is_visibility : KeyWord → Bool
  | .Public | .Private | .Protected => true
  | _ => false

/-- `KeyWord::is_new`: used by the parser as
`t.kind().as_keyword().is_new()`; the `keyword` module of the compiler
lexer (which carries this predicate) is not among the provided sources, so
this follows the only sensible reading of the call site: the keyword is
exactly `new`. -/
def KeyWord.is_new : KeyWord → Bool
  | .New => true
  | _ => false

/-! ## Tokens (`src/compiler/lexer/token.rs`) -/

/-- The token type enum of `src/compiler/lexer/token.rs`. -/
inductive TokenType where
  | Constant
  | Variable
  | Colon
  | Comment
  | KeyWord (k : KeyWord)
  | Identifier
  | Number
  | StringLiteral
  | Operator
  | Accessor
  | Range
  | Boolean
  | Whitespace
  | StatementEnd
  | LineBreak
  | LeftBracket
  | RightBracket
  | LeftParenthesis
  | RightParenthesis
  | LeftBrace
  | RightBrace
  | Comma
  | Backslash
deriving Repr, DecidableEq

namespace TokenType

def is_colon : TokenType → Bool | .Colon => true | _ => false
def is_keyword : TokenType → Bool | .KeyWord _ => true | _ => false
def is_operator : TokenType → Bool | .Operator => true | _ => false
def is_statement_end : TokenType → Bool | .StatementEnd => true | _ => false
def is_comment : TokenType → Bool | .Comment => true | _ => false
def is_string : TokenType → Bool | .StringLiteral => true | _ => false
def is_number : TokenType → Bool | .Number => true | _ => false
def is_identifier : TokenType → Bool | .Identifier => true | _ => false
def is_boolean : TokenType → Bool | .Boolean => true | _ => false
def is_left_bracket : TokenType → Bool | .LeftBracket => true | _ => false
def is_right_bracket : TokenType → Bool | .RightBracket => true | _ => false
def is_left_parenthesis : TokenType → Bool | .LeftParenthesis => true | _ => false
def is_right_parenthesis : TokenType → Bool | .RightParenthesis => true | _ => false
def is_left_brace : TokenType → Bool | .LeftBrace => true | _ => false
def is_right_brace : TokenType → Bool | .RightBrace => true | _ => false
def is_whitespace : TokenType → Bool | .Whitespace => true | _ => false
def is_comma : TokenType → Bool | .Comma => true | _ => false
def is_accessor : TokenType → Bool | .Accessor => true | _ => false
def is_backslash : TokenType → Bool | .Backslash => true | _ => false

/-- `TokenType::as_keyword` panics when the token is not a keyword; every
call site in the parser first checks `is_keyword`, so the default branch
below is never observed. -/
def as_keyword : TokenType → Surn.KeyWord
  | .KeyWord k => k
  | _ => .Namespace

/-- `ToString for TokenType`. -/
def to_string : TokenType → String
  | .Variable => "Variable"
  | .Constant => "Constant"
  | .Colon => "Colon"
  | .Comment => "Comment"
  | .KeyWord _ => "KeyWord"
  | .Identifier => "Identifier"
  | .Number => "Number"
  | .StringLiteral => "String"
  | .Operator => "Operator"
  | .StatementEnd => "Statement End"
  | .LineBreak => "EndOfLine"
  | .Boolean => "Boolean"
  | .LeftBracket => "Opening Delimiter"
  | .RightBracket => "Closing Delimiter"
  | .LeftParenthesis => "Opening Delimiter"
  | .RightParenthesis => "Closing Delimiter"
  | .LeftBrace => "Opening Delimiter"
  | .RightBrace => "Closing Delimiter"
  | .Comma => "Comma"
  | .Whitespace => "Whitespace"
  | .Accessor => "Accessor"
  | .Range => "Range"
  | .Backslash => "Backslash"

end TokenType

/-- `Token(TokenType, Range<usize>, Option<String>)`, with its accessors
`kind`, `range`, `value` as field names. -/
structure Token where
  kind : TokenType
  range : RangeN
  value : Option String
deriving Repr, DecidableEq

/-! ## `combine_ranges` (`src/compiler/parser/generator.rs`) -/

/-- Loop body of `combine_ranges`: the running `(start, end)` pair updated by
one range. -/
def combine_ranges_step (acc : Nat × Nat) (range : RangeN) : Nat × Nat :=
  let start := if range.start < acc.1 then range.start else acc.1
  let stop := if range.stop > acc.2 then range.stop else acc.2
  (start, stop)

/-- `combine_ranges` from `src/compiler/parser/generator.rs`: folds all
ranges over a `(start, end)` accumulator initialised to `(0, 0)`. -/
def combine_ranges (ranges : List RangeN) : RangeN :=
  let acc := ranges.foldl combine_ranges_step (0, 0)
  ⟨acc.1, acc.2⟩

/-! ## `Position` (`compiler/src/compiler/lexer/pos/mod.rs`) -/

/-- Line/column position. -/
structure Position where
  line : Nat
  column : Nat
deriving Repr, DecidableEq

/-- `Position::is_leading` exactly as written in
`compiler/src/compiler/lexer/pos/mod.rs`: false when either coordinate of
`self` exceeds the corresponding coordinate of `pos`, else true. -/
def Position.is_leading (self pos : Position) : Bool :=
  if self.line > pos.line || self.column > pos.column then false else true

/-! ## The position-tracking cursor (`src/lexer/pos/cursor.rs`) -/

/-- The EOF sentinel character. -/
def END_OF_FILE : Char := '\x00'

/-- `is_line_ending` from `src/lexer/pos/cursor.rs`. -/
def is_line_ending (c : Char) : Bool := c = '\n'

/-- The char stream cursor of `src/lexer/pos/cursor.rs`; the `Chars`
iterator is modelled by the list `rest` of characters still to be consumed
(`ilen` is the original input length, in characters — all inputs considered
here are ASCII, where bytes and characters coincide). -/
structure PosCursor where
  ilen : Nat
  rest : List Char
  prev : Char
  pos : Position
deriving Repr, DecidableEq

namespace PosCursor

/-- `Cursor::new` of `src/lexer/pos/cursor.rs`. -/
def new (input : String) : PosCursor :=
  ⟨input.length, input.toList, END_OF_FILE, ⟨1, 0⟩⟩

/-- `Cursor::is_eof`. -/
def is_eof (c : PosCursor) : Bool := c.rest.isEmpty

/-- `Cursor::peek` of `src/lexer/pos/cursor.rs`, translated branch for
branch: consume the next character, record it as `prev`; if it is a line
feed and the source is now exhausted return `None` (leaving the position
untouched); otherwise update the position (line feed: next line, column 0;
other characters: next column) and return the character. -/
def peek (c : PosCursor) : Option Char × PosCursor :=
  match c.rest with
  | [] => (none, c)
  | x :: xs =>
    let c1 : PosCursor := ⟨c.ilen, xs, x, c.pos⟩
    if is_line_ending x && c1.is_eof then
      (none, c1)
    else if is_line_ending x then
      (some x, ⟨c.ilen, xs, x, ⟨c.pos.line + 1, 0⟩⟩)
    else
      (some x, ⟨c.ilen, xs, x, ⟨c.pos.line, c.pos.column + 1⟩⟩)

/-- `Cursor::nth_char`: non-consuming lookahead with EOF sentinel. -/
def nth_char (c : PosCursor) (amt : Nat) : Char := c.rest.getD amt END_OF_FILE

/-- `Cursor::first`. -/
def first (c : PosCursor) : Char := c.nth_char 0

end PosCursor

/-! ## The compiler tokenizer's cursor

The compiler lexer (`src/compiler/lexer/tokenizer.rs`) uses a cursor from
`compiler/lexer/pos/cursor.rs`, a module that is not among the provided
sources; only the sibling line/column cursor above is.  In the compiler
tokenizer the cursor's `get_pos()` flows into `Token`'s `Range<usize>`
fields, so — per the spec, which says the tokenizer "emits a flat sequence
of `Token`s with source byte ranges" — this cursor's position is the offset
of characters consumed so far (bytes and characters coincide on the ASCII
inputs evaluated here).  The consuming and lookahead operations (`peek`,
the `peek_inc` that performs `x + 1` peeks, `eat_while`, lookahead with the
EOF sentinel) follow `src/lexer/pos/cursor.rs`. -/
structure Cursor where
  rest : List Char
  pos : Nat
  prev : Char
deriving Repr, DecidableEq

namespace Cursor

/-- Cursor over the start of an input string. -/
def new (input : String) : Cursor := ⟨input.toList, 0, END_OF_FILE⟩

def is_eof (c : Cursor) : Bool := c.rest.isEmpty

/-- Consume one character (no-op at EOF). -/
def peek (c : Cursor) : Option Char × Cursor :=
  match c.rest with
  | [] => (none, c)
  | x :: xs => (some x, ⟨xs, c.pos + 1, x⟩)

/-- `nth_char`: non-consuming lookahead returning the EOF sentinel past the
end. -/
def nth_char (c : Cursor) (amt : Nat) : Char := c.rest.getD amt END_OF_FILE

def first (c : Cursor) : Char := c.nth_char 0

def second (c : Cursor) : Char := c.nth_char 1

def get_pos (c : Cursor) : Nat := c.pos

def get_prev (c : Cursor) : Char := c.prev

/-- `peek_inc(x)` of `src/lexer/pos/cursor.rs` runs `while !is_eof && i <= x`,
so it performs `x + 1` peeks (stopping early at EOF). -/
def peek_inc_go : Nat → Cursor → Cursor
  | 0, c => c
  | n + 1, c => if c.is_eof then c else peek_inc_go n (c.peek).2

def peek_inc (c : Cursor) (x : Nat) : Cursor := peek_inc_go (x + 1) c

/-- Loop of `eat_while`: consume a maximal run satisfying the predicate,
accumulating the consumed characters. -/
def eat_while_go (p : Char → Bool) (seg : String) :
    List Char → Nat → Char → String × Cursor
  | [], pos, prev => (seg, ⟨[], pos, prev⟩)
  | ch :: cs, pos, prev =>
    if p ch then eat_while_go p (seg.push ch) cs (pos + 1) ch
    else (seg, ⟨ch :: cs, pos, prev⟩)

/-- `eat_while`. -/
def eat_while (c : Cursor) (p : Char → Bool) : String × Cursor :=
  eat_while_go p "" c.rest c.pos c.prev

end Cursor

/-- Rust `char::is_whitespace` (the Unicode `White_Space` property). -/
def rust_is_whitespace (c : Char) : Bool :=
  c = ' ' || c = '\t' || c = '\n' || c = '\r' ||
  c = '\x0b' || c = '\x0c' || c = Char.ofNat 0x85 ||
  c = Char.ofNat 0xA0 || c = Char.ofNat 0x1680 ||
  (Char.ofNat 0x2000 ≤ c && c ≤ Char.ofNat 0x200A) ||
  c = Char.ofNat 0x2028 || c = Char.ofNat 0x2029 ||
  c = Char.ofNat 0x202F || c = Char.ofNat 0x205F || c = Char.ofNat 0x3000

/-- Rust `char::is_alphanumeric`, restricted to the ASCII fragment (the
full Unicode `Alphabetic` table is not reproduced; every input evaluated in
this development is ASCII, where the two agree). -/
def rust_is_alphanumeric (c : Char) : Bool := c.isAlphanum

/-! ## The compiler tokenizer (`src/compiler/lexer/tokenizer.rs`) -/

namespace Cursor

/-- `eat_whitespace`: a maximal whitespace run, `None` when empty. -/
def eat_whitespace (c : Cursor) : Option String × Cursor :=
  let (segment, c1) := c.eat_while rust_is_whitespace
  if segment.isEmpty then (none, c) else (some segment, c1)

/-- Loop of the block-comment branch of `eat_comment`.  The source runs
`eat_while_cursor` with the predicate
`|cursor, c| if c == '*' { if cursor.first() == '/' { cursor.eat(); false } else { true } } else { true }`.
`eat_while_cursor` invokes the predicate as `pred(self, self.first())`, so
inside the predicate `c` and `cursor.first()` are the same character: the
closing branch would need that character to be both `*` and `/` at once and
can never fire (its nested `cursor.eat()` is unreachable), so the loop
consumes every remaining character.  The impossible guard is kept below. -/
def eat_block_comment_go (seg : String) : List Char → Nat → Char → String × Cursor
  | [], pos, prev => (seg, ⟨[], pos, prev⟩)
  | ch :: cs, pos, prev =>
    if ch = '*' && ch = '/' then (seg, ⟨ch :: cs, pos, prev⟩)
    else eat_block_comment_go (seg.push ch) cs (pos + 1) ch

/-- `eat_comment`: `//` to end of line, or the (depth-unaware, see
`eat_block_comment_go`) `/*` form. -/
def eat_comment (c : Cursor) : Option String × Cursor :=
  if c.first = '/' then
    if c.second = '/' then
      let (s, c1) := c.eat_while (fun ch => ch ≠ '\n')
      (some s, c1)
    else if c.second = '*' then
      let (s, c1) := eat_block_comment_go "" c.rest c.pos c.prev
      (some s, c1)
    else (none, c)
  else (none, c)

/-- `eat_identifier`: `[_A-Za-z]` then a maximal run of
non-whitespace alphanumeric-or-underscore characters. -/
def eat_identifier (c : Cursor) : Option String × Cursor :=
  let f := c.first
  if f = '_' || ('a' ≤ f && f ≤ 'z') || ('A' ≤ f && f ≤ 'Z') then
    let (s, c1) := c.eat_while
      (fun ch => !rust_is_whitespace ch && (rust_is_alphanumeric ch || ch = '_'))
    (some s, c1)
  else (none, c)

/-- `eat_number`: a digit starts a maximal run of digits and `.`. -/
def eat_number (c : Cursor) : Option String × Cursor :=
  if ('0' ≤ c.first && c.first ≤ '9') then
    let (s, c1) := c.eat_while (fun ch => ch.isDigit || ch = '.')
    (some s, c1)
  else (none, c)

/-- Loop of `eat_keyword`: build the candidate segment character by
character (aborting on the EOF sentinel), and accept as soon as the segment
is a keyword followed by a whitespace character.  The first argument counts
the remaining iterations out of `MAX_KEYWORD_LENGTH`. -/
def eat_keyword_go (c : Cursor) : Nat → Nat → String → Option (Nat × KeyWord)
  | 0, _, _ => none
  | j + 1, i, segment =>
    let next_char := c.nth_char i
    if next_char = END_OF_FILE then none
    else
      let segment := segment.push next_char
      match KeyWord.from_string segment with
      | some keyword =>
        if rust_is_whitespace (c.nth_char (i + 1)) then some (i, keyword)
        else none
      | none => eat_keyword_go c j (i + 1) segment

/-- `eat_keyword` (note: on success at index `i` the source calls
`peek_inc(i)`, consuming `i + 1` characters — the keyword's length). -/
def eat_keyword (c : Cursor) : Option String × Cursor :=
  match eat_keyword_go c MAX_KEYWORD_LENGTH 0 "" with
  | some (i, keyword) => (some keyword.to_string, c.peek_inc i)
  | none => (none, c)

/-- `eat_operator`.  The single-character arm peeks once and returns the
consumed character; the `or`/`and` arms call `peek_inc(2)`/`peek_inc(3)`,
which (by the `x + 1` convention of `peek_inc`) consume one character more
than the operator's length — a quirk of the source kept as is. -/
def eat_operator (c : Cursor) : Option String × Cursor :=
  match c.first with
  | '+' | '-' | '*' | '/' | '%' | '=' | '<' | '>' | '&' | '|' | '^' | '~' =>
    let c1 := (c.peek).2
    (some c1.get_prev.toString, c1)
  | 'o' =>
    if c.nth_char 1 = 'r' then (some "or", c.peek_inc 2) else (none, c)
  | 'a' =>
    if c.nth_char 1 = 'n' && c.nth_char 2 = 'd' then (some "and", c.peek_inc 3)
    else (none, c)
  | _ => (none, c)

/-- Outcome of the inner loop of `eat_boolean`: a match found at index `i`,
the EOF sentinel hit (which aborts the whole function, the remaining
candidate values untried), or the loop ran out without matching. -/
inductive BoolScan where
  | found (i : Nat) (segment : String)
  | hitEof
  | noMatch
deriving Repr, DecidableEq

/-- Inner loop of `eat_boolean` for one candidate value: mismatching
characters are skipped (`continue`) without extending the segment. -/
def eat_boolean_go (c : Cursor) (value : String) : Nat → Nat → String → BoolScan
  | 0, _, _ => .noMatch
  | j + 1, i, segment =>
    let next_char := c.nth_char i
    if next_char = END_OF_FILE then .hitEof
    else if next_char ≠ value.toList.getD i END_OF_FILE then
      eat_boolean_go c value j (i + 1) segment
    else
      let segment := segment.push next_char
      if segment = value then .found i segment
      else eat_boolean_go c value j (i + 1) segment

/-- `eat_boolean`: try `true` then `false`. -/
def eat_boolean (c : Cursor) : Option String × Cursor :=
  match eat_boolean_go c "true" 4 0 "" with
  | .found i seg => (some seg, c.peek_inc i)
  | .hitEof => (none, c)
  | .noMatch =>
    match eat_boolean_go c "false" 5 0 "" with
    | .found i seg => (some seg, c.peek_inc i)
    | .hitEof => (none, c)
    | .noMatch => (none, c)

/-- `eat_string`: any of the three quote characters starts a literal
consumed up to (not including) the matching quote; no escapes. -/
def eat_string (c : Cursor) : Option String × Cursor :=
  if c.first ≠ '"' && c.first ≠ Char.ofNat 39 && c.first ≠ Char.ofNat 96 then
    (none, c)
  else
    let (f, c1) := c.peek
    let firstq := f.getD END_OF_FILE
    let (s, c2) := c1.eat_while (fun ch => ch ≠ firstq)
    (some s, c2)

/-- `eat_value_reserved`: `::` vs `:` and `..` vs `.` (the `..` arm calls
`peek_inc(2)`, consuming three characters — a quirk of the source kept as
is). -/
def eat_value_reserved (c : Cursor) : Option (TokenType × String) × Cursor :=
  match c.first with
  | ':' =>
    if c.second = ':' then (some (.Accessor, "::"), c.peek_inc 1)
    else (some (.Colon, ":"), (c.peek).2)
  | '.' =>
    if c.second = '.' then (some (.Range, ".."), c.peek_inc 2)
    else (some (.Accessor, "."), (c.peek).2)
  | _ => (none, c)

/-- `eat_reserved`: single-character reserved punctuation (the consuming
peek is done by the caller `eat`). -/
def eat_reserved (c : Cursor) : Option TokenType :=
  match c.first with
  | '[' => some .LeftBracket
  | ']' => some .RightBracket
  | '(' => some .LeftParenthesis
  | ')' => some .RightParenthesis
  | '{' => some .LeftBrace
  | '}' => some .RightBrace
  | ';' => some .StatementEnd
  | ',' => some .Comma
  | '\\' => some .Backslash
  | _ => none

/-- `Cursor::eat` of `src/compiler/lexer/tokenizer.rs`: try the lexical
rules in their fixed priority order; if none matches, consume one character
and emit no token. -/
def eat (c : Cursor) : Option Token × Cursor :=
  let start_pos := c.get_pos
  let (ws, c) := c.eat_whitespace
  match ws with
  | some spaces => (some ⟨.Whitespace, ⟨start_pos, c.get_pos⟩, some spaces⟩, c)
  | none =>
  let (cm, c) := c.eat_comment
  match cm with
  | some comment => (some ⟨.Comment, ⟨start_pos, c.get_pos⟩, some comment⟩, c)
  | none =>
  let (op, c) := c.eat_operator
  match op with
  | some operator => (some ⟨.Operator, ⟨start_pos, c.get_pos⟩, some operator⟩, c)
  | none =>
  let (kw, c) := c.eat_keyword
  match kw with
  | some keyword =>
    (some ⟨.KeyWord ((KeyWord.from_string keyword).getD .Namespace),
      ⟨start_pos, c.get_pos⟩, none⟩, c)
  | none =>
  let (bl, c) := c.eat_boolean
  match bl with
  | some boolean => (some ⟨.Boolean, ⟨start_pos, c.get_pos⟩, some boolean⟩, c)
  | none =>
  let (idt, c) := c.eat_identifier
  match idt with
  | some identifier =>
    (some ⟨.Identifier, ⟨start_pos, c.get_pos⟩, some identifier⟩, c)
  | none =>
  let (num, c) := c.eat_number
  match num with
  | some number => (some ⟨.Number, ⟨start_pos, c.get_pos⟩, some number⟩, c)
  | none =>
  let (st, c) := c.eat_string
  match st with
  | some string =>
    let c := (c.peek).2
    (some ⟨.StringLiteral, ⟨start_pos, c.get_pos⟩, some string⟩, c)
  | none =>
  let (vr, c) := c.eat_value_reserved
  match vr with
  | some token_type => (some ⟨token_type.1, ⟨start_pos, c.get_pos⟩, some token_type.2⟩, c)
  | none =>
  match c.eat_reserved with
  | some token_type =>
    let c := (c.peek).2
    (some ⟨token_type, ⟨start_pos, c.get_pos⟩, none⟩, c)
  | none =>
  let c := (c.peek).2
  (none, c)

end Cursor

/-- Loop of `tokenize`: while the cursor is not exhausted, `eat` and keep
the tokens.  The fuel bounds the number of iterations; since `eat` consumes
at least one character per round, `input.length + 1` is always enough. -/
def tokenize_go : Nat → Cursor → List Token
  | 0, _ => []
  | fuel + 1, c =>
    if c.is_eof then []
    else
      let (token, c1) := c.eat
      match token with
      | some t => t :: tokenize_go fuel c1
      | none => tokenize_go fuel c1

/-- `tokenize` of `src/compiler/lexer/tokenizer.rs`. -/
def tokenize (input : String) : List Token :=
  tokenize_go (input.length + 1) (Cursor.new input)

/-! ## Operations (`src/ast/ops.rs`) -/

inductive BinOp where
  | Plus | Minus | Star | Slash | Percent | Caret | Not | Flip
  | And | Or | Shl | Shr | UShr
deriving Repr, DecidableEq

inductive UnaryOp where
  | IncP | Inc | DecP | Dec | Neg | Pos | Not | Delete | Object
deriving Repr, DecidableEq

inductive LogicalOp where
  | And | Or | Coalasce
deriving Repr, DecidableEq

inductive ComparisonOp where
  | Eq | NotEq | GreaterThan | GreaterThanOrEqual | LessThan | LessThanOrEqual
  | Contains | In | InstanceOf
deriving Repr, DecidableEq

inductive AssignmentOp where
  | Eq | Add | Sub | Mul | Div | Rem | BitAnd | BitOr | BitXor
  | BitSh1 | BitShr | BitUshr | BoolAnd | BoolOr | Coalesce
deriving Repr, DecidableEq

inductive AnyOperation where
  | BinOp (op : BinOp)
  | UnaryOp (op : UnaryOp)
  | LogicalOp (op : LogicalOp)
  | ComparisonOp (op : ComparisonOp)
  | AssignmentOp (op : AssignmentOp)
deriving Repr, DecidableEq

/-- `AnyOperation::from_string` (`src/ast/ops.rs`). -/
def AnyOperation.from_string (value : String) : Option AnyOperation :=
  match value with
  | "=" => some (.AssignmentOp .Eq)
  | "+=" => some (.AssignmentOp .Add)
  | "-=" => some (.AssignmentOp .Sub)
  | "*=" => some (.AssignmentOp .Mul)
  | "/=" => some (.AssignmentOp .Div)
  | "%=" => some (.AssignmentOp .Rem)
  | "&=" => some (.AssignmentOp .BitAnd)
  | "|=" => some (.AssignmentOp .BitOr)
  | "^=" => some (.AssignmentOp .BitXor)
  | "<<=" => some (.AssignmentOp .BitSh1)
  | ">>=" => some (.AssignmentOp .BitShr)
  | "==" => some (.ComparisonOp .Eq)
  | "!=" => some (.ComparisonOp .NotEq)
  | "<" => some (.ComparisonOp .LessThan)
  | ">" => some (.ComparisonOp .GreaterThan)
  | "<=" => some (.ComparisonOp .LessThanOrEqual)
  | ">=" => some (.ComparisonOp .GreaterThanOrEqual)
  | "<<" => some (.BinOp .Shl)
  | ">>" => some (.BinOp .Shr)
  | "&" => some (.BinOp .And)
  | "|" => some (.BinOp .Or)
  | "^" => some (.BinOp .Caret)
  | "&&" => some (.LogicalOp .And)
  | "||" => some (.LogicalOp .Or)
  | "!" => some (.BinOp .Not)
  | "~" => some (.BinOp .Flip)
  | "-" => some (.BinOp .Minus)
  | "+" => some (.BinOp .Plus)
  | "*" => some (.BinOp .Star)
  | "/" => some (.BinOp .Slash)
  | "%" => some (.BinOp .Percent)
  | _ => none

/-! ## The AST model (`src/compiler/ast/mod.rs`, `src/compiler/types/mod.rs`) -/

inductive Visibility where
  | Public | Private | Protected | Module
deriving Repr, DecidableEq

/-- `Visibility::from_keyword`. -/
def Visibility.from_keyword (keyword : KeyWord) : Visibility :=
  match keyword with
  | .Public => .Public
  | .Private => .Private
  | .Protected => .Protected
  | _ => .Private

inductive MemberLookup where
  | Static | Dynamic | Index
deriving Repr, DecidableEq

/-- `Path { name, parts: Vec<Path> }`. -/
inductive Path where
  | mk (name : String) (parts : List Path)
deriving Repr

def Path.name : Path → String | .mk n _ => n

def Path.parts : Path → List Path | .mk _ p => p

/-- `Path::from(name, parts)`: each part becomes a leaf `Path`. -/
def Path.from (name : String) (parts : List String) : Path :=
  .mk name (parts.map (fun part => .mk part []))

inductive StrictBuiltInType where
  | U8 | U16 | U32 | U64 | U128 | I8 | I16 | I32 | I64 | I128 | F32 | F64
deriving Repr, DecidableEq

/-- `CompilerMacro { name, body }`. -/
structure CompilerMacro where
  name : String
  body : String
deriving Repr, DecidableEq

set_option maxHeartbeats 2000000 in
mutual

/-- The `Expression` enum of `src/compiler/ast/mod.rs`. -/
inductive Expression where
  | Await (e : Expression)
  | Call (c : Call)
  | MethodCall (m : MethodCall)
  | New (n : NewCall)
  | Array (a : Array)
  | Object (o : Object)
  | Operation (o : Operation)
  | Statement (s : Statement)
  | Member (m : MemberListNode)
  | Literal (l : Literal)
  | EndOfLine

/-- The `Statement` enum of `src/compiler/ast/mod.rs`. -/
inductive Statement where
  | Var (v : Variable)
  | Const (v : Variable)
  | Static (s : Static)
  | Function (f : Function)
  | Class (c : Class)
  | Block (es : List Expression)
  | Import (p : Path)
  | Namespace (n : Namespace)
  | TypeDef (t : TypeDefinition)
  | Return (r : Return)
  | MacroInvocation (m : CompilerMacro)

/-- `Literal { value, ty }`. -/
inductive Literal where
  | mk (value : String) (ty : Option TypeKind)

/-- `MemberListNode { name: Box<Expression>, origin: Token, lookup }`. -/
inductive MemberListNode where
  | mk (name : Expression) (origin : Token) (lookup : MemberLookup)

/-- `Array { values, ty }`. -/
inductive Array where
  | mk (values : List Expression) (ty : Option TypeKind)

/-- `Object { properties, ty }`. -/
inductive Object where
  | mk (properties : List ObjectProperty) (ty : Option TypeKind)

/-- `ObjectProperty { name, value }`. -/
inductive ObjectProperty where
  | mk (name : String) (value : Expression)

/-- `Operation { left, right, op }`. -/
inductive Operation where
  | mk (left : Expression) (right : Expression) (op : AnyOperation)

/-- `Call { name, arguments }`. -/
inductive Call where
  | mk (name : String) (arguments : List Expression)

/-- `NewCall { name, arguments }`. -/
inductive NewCall where
  | mk (name : String) (arguments : List Expression)

/-- `MethodCall { name, arguments, callee }`. -/
inductive MethodCall where
  | mk (name : String) (arguments : List Expression) (callee : Expression)

/-- `Static { visibility, statement }`. -/
inductive Static where
  | mk (visibility : Visibility) (statement : Statement)

/-- `Class { name, extends, implements, body, node_id }`. -/
inductive Class where
  | mk (name : String) (extends_ : Option String) (implements : Option (List String))
      (body : ClassBody) (node_id : Nat)

/-- `ClassProperty { name, visibility, ty, assignment }`. -/
inductive ClassProperty where
  | mk (name : String) (visibility : Visibility) (ty : Option TypeKind)
      (assignment : Option Expression)

/-- `ClassBody { properties, methods, other }`. -/
inductive ClassBody where
  | mk (properties : List ClassProperty) (methods : List Function)
      (other : List ClassAllowedStatement)

/-- The `ClassAllowedStatement` enum. -/
inductive ClassAllowedStatement where
  | Property (p : ClassProperty)
  | Method (f : Function)
  | Macro (m : CompilerMacro)
  | Import (p : Path)
  | Static (s : ClassAllowedStatement)

/-- `Return { expression }`. -/
inductive Return where
  | mk (expression : Option Expression)

/-- `Function { name, inputs, body, outputs, visibility, node_id }`. -/
inductive Function where
  | mk (name : Option String) (inputs : List FunctionInput) (body : Statement)
      (outputs : Option TypeKind) (visibility : Visibility) (node_id : Nat)

/-- `FunctionInput { name, ty }`. -/
inductive FunctionInput where
  | mk (name : String) (ty : Option TypeKind)

/-- `Variable { name, node_id, ty, visibility, assignment }`. -/
inductive Variable where
  | mk (name : String) (node_id : Nat) (ty : Option TypeKind)
      (visibility : Visibility) (assignment : Option Expression)

/-- `Namespace { path, body }`. -/
inductive Namespace where
  | mk (path : Path) (body : Option Statement)

/-- The `TypeKind` enum of `src/compiler/types/mod.rs`. -/
inductive TypeKind where
  | Union (u : TypeUnion)
  | Reference (r : TypeReference)
  | RuntimeType (r : RuntimeType)
  | BuiltIn (b : BuiltInType)

/-- `TypeParam { name, kind }`. -/
inductive TypeParam where
  | mk (name : Option String) (kind : TypeKind)

/-- `TypeUnion { types }`. -/
inductive TypeUnion where
  | mk (types : List TypeKind)

/-- `TypeReference { name, params }`. -/
inductive TypeReference where
  | mk (name : String) (params : Option (List TypeParam))

/-- `RuntimeType { params, body }`. -/
inductive RuntimeType where
  | mk (params : Option (List TypeParam)) (body : Expression)

/-- `TypeDefinition { name, params, kind }`. -/
inductive TypeDefinition where
  | mk (name : String) (params : Option (List TypeParam)) (kind : TypeKind)

/-- The `BuiltInType` enum of `src/compiler/types/mod.rs` (its `Array`
variant boxes a `TypeKind`). -/
inductive BuiltInType where
  | Strict (s : StrictBuiltInType)
  | Byte | Short | Int | Long | Float | Double | Bool | String
  | Array (k : TypeKind)
  | Any

end

/-! Constructors and accessors matching the Rust `impl`s. -/

def Literal.new (value : String) (ty : Option TypeKind) : Literal := .mk value ty

def Literal.value : Literal → String | .mk v _ => v

def MemberListNode.new (name : Expression) (origin : Token) (lookup : MemberLookup) :
    MemberListNode := .mk name origin lookup

def Array.new (values : List Expression) (ty : Option TypeKind) : Array := .mk values ty

def Object.empty : Object := .mk [] none

def Object.properties : Object → List ObjectProperty | .mk p _ => p

/-- Append to `object.properties` (models `object.properties.push(prop)`). -/
def Object.push_property (o : Object) (p : ObjectProperty) : Object :=
  match o with | .mk ps ty => .mk (ps ++ [p]) ty

def ObjectProperty.new (name : String) (value : Expression) : ObjectProperty :=
  .mk name value

/-- `Operation::new(left, op, right)`. -/
def Operation.new (left : Expression) (op : AnyOperation) (right : Expression) :
    Operation := .mk left right op

def Call.new (name : String) (arguments : List Expression) : Call := .mk name arguments

def NewCall.new (name : String) (arguments : List Expression) : NewCall :=
  .mk name arguments

def Static.new (visibility : Visibility) (statement : Statement) : Static :=
  .mk visibility statement

def ClassProperty.new (name : String) (visibility : Visibility)
    (ty : Option TypeKind) (assignment : Option Expression) : ClassProperty :=
  .mk name visibility ty assignment

def ClassBody.new : ClassBody := .mk [] [] []

/-- Append to `body.properties`. -/
def ClassBody.push_property (b : ClassBody) (p : ClassProperty) : ClassBody :=
  match b with | .mk ps ms os => .mk (ps ++ [p]) ms os

/-- Append to `body.methods`. -/
def ClassBody.push_method (b : ClassBody) (f : Function) : ClassBody :=
  match b with | .mk ps ms os => .mk ps (ms ++ [f]) os

/-- Append to `body.other`. -/
def ClassBody.push_other (b : ClassBody) (o : ClassAllowedStatement) : ClassBody :=
  match b with | .mk ps ms os => .mk ps ms (os ++ [o])

def ClassAllowedStatement.new_static (s : ClassAllowedStatement) :
    ClassAllowedStatement := .Static s

def Return.new (expression : Option Expression) : Return := .mk expression

/-- Overwrite `func.visibility` (models the field assignment in
`parse_class_allowed_statement`). -/
def Function.set_visibility (f : Function) (v : Visibility) : Function :=
  match f with | .mk n i b o _ id => .mk n i b o v id

def FunctionInput.new (name : String) (ty : Option TypeKind) : FunctionInput :=
  .mk name ty

/-- `Variable::new` (`node_id` is fixed at 0). -/
def Variable.new (name : String) (ty : Option TypeKind) (visibility : Visibility)
    (assignment : Option Expression) : Variable :=
  .mk name 0 ty visibility assignment

def TypeUnion.empty : TypeUnion := .mk []

def TypeUnion.types : TypeUnion → List TypeKind | .mk ts => ts

def TypeReference.new (name : String) (params : Option (List TypeParam)) :
    TypeReference := .mk name params

def TypeReference.name : TypeReference → String | .mk n _ => n

/-- `TypeParam::new` (no name). -/
def TypeParam.new (kind : TypeKind) : TypeParam := .mk none kind

/-- Alias for the Lean `String` type, needed in signatures declared inside
the `BuiltInType` namespace, where the bare name `String` resolves to the
`String` constructor of `BuiltInType`. -/
abbrev Str := String

/-- `BuiltInType::from_string`.  The `"array"` arm in the source is
`BuiltInType::Array(Box::new(TypeKind::built_in("any")))`, and
`TypeKind::built_in("any")` evaluates to `TypeKind::BuiltIn(BuiltInType::Any)`;
that value is written directly here. -/
def BuiltInType.from_string (s : Str) : Option BuiltInType :=
  match s with
  | "byte" => some .Byte
  | "short" => some .Short
  | "int" => some .Int
  | "long" => some .Long
  | "float" => some .Float
  | "double" => some .Double
  | "bool" => some .Bool
  | "string" => some .String
  | "array" => some (.Array (.BuiltIn .Any))
  | "any" => some .Any
  | "u8" => some (.Strict .U8)
  | "u16" => some (.Strict .U16)
  | "u32" => some (.Strict .U32)
  | "u64" => some (.Strict .U64)
  | "u128" => some (.Strict .U128)
  | "i8" => some (.Strict .I8)
  | "i16" => some (.Strict .I16)
  | "i32" => some (.Strict .I32)
  | "i64" => some (.Strict .I64)
  | "i128" => some (.Strict .I128)
  | "f32" => some (.Strict .F32)
  | "f64" => some (.Strict .F64)
  | _ => none

/-! ## `TokenStream` (`compiler/src/util/token_stream.rs` and the
`StreamBuffer` trait of `src/util/mod.rs`) -/

/-- `TokenStream { buffer, initial_length, prev }` (the `VecDeque` iterator
is the list `buffer`). -/
structure TokenStream where
  buffer : List Token
  initial_length : Nat
  prev : Option Token
deriving Repr, DecidableEq

namespace TokenStream

/-- `TokenStream::new`. -/
def new (tokens : List Token) : TokenStream := ⟨tokens, tokens.length, none⟩

/-- `is_eof`: the buffer is empty. -/
def is_eof (s : TokenStream) : Bool := s.buffer.isEmpty

/-- `nth`: non-consuming lookahead. -/
def nth (s : TokenStream) (n : Nat) : Option Token := s.buffer.get? n

def first (s : TokenStream) : Option Token := s.nth 0

def second (s : TokenStream) : Option Token := s.nth 1

/-- `peek`: pop the front token, recording it (or `None`) as `prev`. -/
def peek (s : TokenStream) : Option Token × TokenStream :=
  match s.buffer with
  | [] => (none, ⟨[], s.initial_length, none⟩)
  | t :: ts => (some t, ⟨ts, s.initial_length, some t⟩)

/-- `first_if`. -/
def first_if (s : TokenStream) (f : Token → Bool) : Option Token :=
  (s.first).filter f

/-- `second_if`. -/
def second_if (s : TokenStream) (f : Token → Bool) : Option Token :=
  (s.second).filter f

/-- `nth_if`. -/
def nth_if (s : TokenStream) (n : Nat) (f : Token → Bool) : Option Token :=
  (s.nth n).filter f

/-- `peek_if`: consume-and-return only when the first token satisfies the
predicate. -/
def peek_if (s : TokenStream) (f : Token → Bool) : Option Token × TokenStream :=
  match s.first_if f with
  | some tk => (some tk, (s.peek).2)
  | none => (none, s)

/-- Loop of `peek_until` over the buffer: consume tokens while the
predicate is false, returning (result, remaining buffer, prev). -/
def peek_until_go (f : Token → Bool) :
    List Token → Option Token → Option Token × List Token × Option Token
  | [], prev => (none, [], prev)
  | t :: ts, prev =>
    if !(f t) then peek_until_go f ts (some t) else (some t, t :: ts, prev)

/-- `peek_until` of the `StreamBuffer` trait: `None` on exhaustion, else the
first token satisfying the predicate, left unconsumed. -/
def peek_until (s : TokenStream) (f : Token → Bool) : Option Token × TokenStream :=
  let r := peek_until_go f s.buffer s.prev
  (r.1, ⟨r.2.1, s.initial_length, r.2.2⟩)

/-- `peek_inc(n)` of the `StreamBuffer` trait: exactly `n` peeks. -/
def peek_inc_go : Nat → TokenStream → TokenStream
  | 0, s => s
  | n + 1, s => peek_inc_go n (s.peek).2

def peek_inc (s : TokenStream) (n : Nat) : TokenStream := peek_inc_go n s

/-- Loop of `find_after`/`find_after_nth`: advance `i` past tokens matching
`after`, then test `find`.  The scan budget (second argument) is set by the
wrappers to `buffer.length + 1`, which the loop can never exhaust since `i`
grows strictly and the loop stops once `nth i` is `None`. -/
def find_after_go (s : TokenStream) (find after : Token → Bool) :
    Nat → Nat → Option (Nat × Token)
  | _, 0 => none
  | i, budget + 1 =>
    match s.nth_if i after with
    | some _ => find_after_go s find after (i + 1) budget
    | none =>
      match s.nth_if i find with
      | some tk => some (i, tk)
      | none => none

/-- `find_after`. -/
def find_after (s : TokenStream) (find after : Token → Bool) : Option (Nat × Token) :=
  find_after_go s find after 0 (s.buffer.length + 1)

/-- `find_after_nth`. -/
def find_after_nth (s : TokenStream) (n : Nat) (find after : Token → Bool) :
    Option (Nat × Token) :=
  find_after_go s find after n (s.buffer.length + 1)

end TokenStream

/-! ## The parser (`src/compiler/parser/generator.rs`) -/

/-- Modelled from the spec: the `Node`/`AstBody` envelope used by the
parser (`Node::new`, `AstBody::push_node`, `Node::inner`) comes from a
version of the AST module that is not among the provided sources (the
provided `compiler/ast/mod.rs` predates it).  Per the spec, a `Node` is one
parsed top-level unit whose inner value is an `Expression` or a `Statement`
(`Node::inner() -> NodeKind{Expression|Statement}`) tagged with its source
range, and `AstBody` is the append-only ordered sequence of `Node`s for one
file.  `Node::new` is called with the inner kind, the range of the first
token of the construct and the range of the last consumed token. -/
inductive NodeKind where
  | Expression (e : Expression)
  | Statement (s : Statement)

/-- A parsed top-level unit (see `NodeKind` for provenance). -/
structure Node where
  inner : NodeKind
  start : RangeN
  stop : RangeN

/-- The ordered sequence of top-level nodes (see `NodeKind` for
provenance). -/
structure AstBody where
  program : List Node

def AstBody.new : AstBody := ⟨[]⟩

def AstBody.push_node (b : AstBody) (n : Node) : AstBody := ⟨b.program ++ [n]⟩

def Node.new (inner : NodeKind) (start stop : RangeN) : Node := ⟨inner, start, stop⟩

/-- Parser-level failure.  `report` models the fail-fast `create_report!`
macro of `generator.rs` (which prints a snippet at the given location, with
the given message and optional inline label, and calls `process::exit(1)`);
`parser` models a returned `ParserError` with its `reason`, `message`,
`location` and partially built AST, as constructed in `generator.rs`;
`panicked` models a Rust panic (an `unwrap()` of `None`); `outOfFuel` is an
artifact of the embedding's explicit recursion budget, never reached with
sufficient fuel. -/
inductive PErr where
  | report (location : RangeN) (message : String) (inline : Option String)
  | parser (reason : String) (message : String) (location : RangeN) (ast : AstBody)
  | panicked (what : String)
  | outOfFuel

/-- The mutable state of `AstGenerator`: its token stream and AST body, the
context's local id counter (`Context::get_next_local_id`) and the source
text (`context.source.get_contents()`, read when building error
locations). -/
structure St where
  tokens : TokenStream
  body : AstBody
  local_id : Nat
  src : String

/-- Result of a parser step: an error, or a value with the updated state. -/
abbrev PRes (α : Type) := Except PErr (α × St)

/-- Sequencing of parser steps (Rust `?` plus state threading). -/
def pbind {α β : Type} (x : PRes α) (f : α → St → PRes β) : PRes β :=
  match x with
  | .error e => .error e
  | .ok (a, st) => f a st

/-- Rust `Option::unwrap` on a token's literal text.  Every token kind the
parser unwraps this way (identifiers, numbers, strings, booleans,
operators, value-reserved tokens) carries a value when produced by
`tokenize`, so the sentinel default is not observed in the runs verified
here. -/
def value_unwrap (o : Option String) : String := o.getD ""

namespace St

def peek (st : St) : Option Token × St :=
  let r := st.tokens.peek
  (r.1, { st with tokens := r.2 })

def peek_if (st : St) (f : Token → Bool) : Option Token × St :=
  let r := st.tokens.peek_if f
  (r.1, { st with tokens := r.2 })

def peek_until (st : St) (f : Token → Bool) : Option Token × St :=
  let r := st.tokens.peek_until f
  (r.1, { st with tokens := r.2 })

def peek_inc (st : St) (n : Nat) : St :=
  { st with tokens := st.tokens.peek_inc n }

end St

/-- `create_report!` at `self.tokens.first().unwrap().range()` — the shape
of almost every fail-fast site in `generator.rs`. -/
def report_at_first {α : Type} (st : St) (message : String)
    (inline : Option String) : PRes α :=
  match st.tokens.first with
  | some t => .error (.report t.range message inline)
  | none => .error (.panicked "first() on empty token stream")

/-- `AstGenerator::skip_whitespace`. -/
def skip_whitespace (st : St) : St :=
  (st.peek_until (fun t =>
    if t.kind.is_whitespace || t.kind.is_comment then false else true)).2

/-- `AstGenerator::skip_whitespace_err`: on exhaustion while skipping
whitespace/comments, report from the first token's start to the end of the
source. -/
def skip_whitespace_err (err : String) (st : St) : PRes Unit :=
  match st.tokens.first with
  | none => .error (.panicked "first() on empty token stream")
  | some t =>
    let start := t.range.start
    let (r, st) := st.peek_until (fun t => !t.kind.is_whitespace && !t.kind.is_comment)
    match r with
    | none => .error (.report ⟨start, st.src.length⟩ err none)
    | some _ => .ok ((), st)

/-- `AstGenerator::parse_visibility`. -/
def parse_visibility (st : St) : PRes (Option Visibility) :=
  let (m, st) := st.peek_if (fun t => t.kind.is_keyword && t.kind.as_keyword.is_visibility)
  match m with
  | some modifier =>
    let visibility := Visibility.from_keyword modifier.kind.as_keyword
    pbind (skip_whitespace_err
      "A statement or static keyword was expected after a visibility modifier but none was found." st)
      fun _ st => .ok (some visibility, st)
  | none => .ok (none, st)

/-- `AstGenerator::parse_literal_expression`. -/
def parse_literal_expression (st : St) : PRes (Option Literal) :=
  let (v, st) := st.peek_if (fun t =>
    t.kind.is_identifier || t.kind.is_number || t.kind.is_string || t.kind.is_boolean)
  match v with
  | some v => .ok (some (Literal.new (value_unwrap v.value) none), st)
  | none => .ok (none, st)

/-- The built-in rewrite pass run over a parsed union's members
(`parse_type_kind`, lines 1056–1064 of `generator.rs`): any `Reference`
whose name is a built-in type name becomes `BuiltIn`. -/
def builtin_rewrite (type_kind : TypeKind) : TypeKind :=
  match type_kind with
  | .Reference r =>
    match BuiltInType.from_string r.name with
    | some built_in => .BuiltIn built_in
    | none => type_kind
  | _ => type_kind

/-- `create_report!` whose inline label is
`format!("Unexpected token: {}", self.tokens.first().unwrap().kind().to_string())`
(with the given text around the kind), at the first token's range. -/
def report_unexpected_at_first {α : Type} (st : St) (message : String)
    (pre post : String) : PRes α :=
  match st.tokens.first with
  | some t => .error (.report t.range message (some (pre ++ t.kind.to_string ++ post)))
  | none => .error (.panicked "first() on empty token stream")

/-- `AstGenerator::parse_class_extension`. -/
def parse_class_extension (st : St) : PRes (Option String) :=
  let (kw, st) := st.peek_if (fun t =>
    t.kind.is_keyword && t.kind.as_keyword == KeyWord.Extends)
  match kw with
  | none => .ok (none, st)
  | some _ =>
    let st := skip_whitespace st
    let (path, st) := st.peek_if (fun t => t.kind.is_identifier)
    match path with
    | some path => .ok (some (value_unwrap path.value), st)
    | none =>
      report_unexpected_at_first st
        "Expected a class name to extend but none was found." "Unexpected token: " ""

/-- The parser’s mutually recursive productions, gathered into a record:
each production is defined below as a standalone `*_F` function over the
record of productions available at the next lower recursion budget, and
`parserFns` ties the knot by structural recursion on the fuel.  (A direct
mutual definition of the twenty-odd productions compiles to a mutual
course-of-values recursor that the kernel cannot reduce in practice; this
encoding is definitionally equivalent and evaluates.) -/
structure ParserFns where
  parse_statement : St → PRes (Option Statement)
  parse_namespace : St → PRes (Option Namespace)
  parse_namespace_go : Token → List String → St → PRes (Option Namespace)
  parse_static : St → PRes (Option Statement)
  parse_variable : St → PRes (Option (Variable × Bool))
  parse_variable_after_type :
    Token → Visibility → Bool → Option TypeKind → St → PRes (Option (Variable × Bool))
  parse_function : St → PRes (Option Function)
  parse_class : St → PRes (Option Class)
  parse_class_property : Visibility → St → PRes (Option ClassProperty)
  parse_class_property_after_type :
    Token → Visibility → Option TypeKind → St → PRes (Option ClassProperty)
  parse_class_allowed_statement : St → PRes (Option ClassAllowedStatement)
  parse_class_body : St → PRes (Option ClassBody)
  parse_class_body_go : ClassBody → St → PRes ClassBody
  parse_block : St → PRes (Option (List Expression))
  parse_block_go : List Expression → St → PRes (Option (List Expression))
  parse_expression : St → PRes (Option Expression)
  parse_expression_tail : Option Expression → St → PRes (Option Expression)
  parse_call_expression : St → PRes (Option Call)
  parse_member_expression : St → PRes (Option MemberListNode)
  parse_new_expression : St → PRes (Option NewCall)
  parse_array_expression : St → PRes (Option Array)
  parse_array_expression_go : List Expression → St → PRes (Option Array)
  parse_object_expression : St → PRes (Option Object)
  parse_object_expression_go : Object → St → PRes (Option Object)
  parse_function_call_inputs : St → PRes (Option (List Expression))
  parse_function_call_inputs_go : List Expression → St → PRes (Option (List Expression))
  parse_type_kind : St → PRes (Option TypeKind)
  parse_type_union_go : List TypeKind → St → PRes (Option TypeKind)
  parse_type_generics : St → PRes (Option (List TypeParam))
  parse_type_generics_go : List TypeParam → St → PRes (Option (List TypeParam))
  parse_class_implementation : St → PRes (Option (List String))
  parse_class_implementation_go : List String → St → PRes (List String)
  parse_function_inputs : St → PRes (Option (List FunctionInput × Option TypeKind))
  parse_function_inputs_go : List FunctionInput → St → PRes (List FunctionInput)


/-- `AstGenerator::parse_type_kind`. -/
def parse_type_kind_F (P : ParserFns) (st : St) : PRes (Option TypeKind) :=
    let (initial, st) := st.peek_if (fun t => t.kind.is_identifier)
    match initial with
    | none => .ok (none, st)
    | some initial =>
      let name := value_unwrap initial.value
      let st := skip_whitespace st
      let (pipe, st) := st.peek_if (fun t =>
        t.kind.is_operator && value_unwrap t.value = "|")
      match pipe with
      | some _ => P.parse_type_union_go [] st
      | none =>
        match BuiltInType.from_string name with
        | some ty => .ok (some (.BuiltIn ty), st)
        | none =>
          pbind (P.parse_type_generics st) fun generics st =>
          .ok (some (.Reference (TypeReference.new name generics)), st)

/-- The union loop of `parse_type_kind` (`while !is_eof`), carrying
`union_type.types`.  Exiting the loop (buffer exhausted, or `break` on an
`=` token) runs the built-in rewrite over the collected members and returns
the union.  Note two quirks of the source, kept as they are: the member
parsed *before* the first `|` is never pushed into the union, and the
`=`-test unwraps `t.value()` (a panic, modelled by `value_unwrap`, for
valueless tokens). -/
def parse_type_union_go_F (P : ParserFns) (types : List TypeKind) (st : St) : PRes (Option TypeKind) :=
    if st.tokens.is_eof then
      .ok (some (.Union (.mk (types.map builtin_rewrite))), st)
    else
      pbind (skip_whitespace_err "Expected a type reference to follow a union type." st)
        fun _ st =>
      let (pipe, st) := st.peek_if (fun t =>
        t.kind.is_operator && value_unwrap t.value = "|")
      match pipe with
      | some _ =>
        pbind (skip_whitespace_err "Expected a type reference to follow a union type." st)
          fun _ st =>
        let (nm, st) := st.peek_if (fun t => t.kind.is_identifier)
        match nm with
        | some name =>
          pbind (P.parse_type_generics st) fun generics st =>
          P.parse_type_union_go
            (types ++ [TypeKind.Reference (TypeReference.new (value_unwrap name.value) generics)]) st
        | none =>
          report_at_first st "Expected a type reference to follow a union type."
            (some "A type reference is expected here.")
      | none =>
        match st.tokens.first_if (fun t => value_unwrap t.value = "=") with
        | some _ => .ok (some (.Union (.mk (types.map builtin_rewrite))), st)
        | none =>
          report_at_first st "Expected a type reference to follow a union type."
            (some "A type reference is expected here.")

/-- `AstGenerator::parse_type_generics`. -/
def parse_type_generics_F (P : ParserFns) (st : St) : PRes (Option (List TypeParam)) :=
    let (lt, st) := st.peek_if (fun t =>
      t.kind.is_operator && value_unwrap t.value = "<")
    match lt with
    | some _ => P.parse_type_generics_go [] st
    | none => .ok (none, st)

/-- The `while !is_eof` loop of `parse_type_generics`, carrying the
collected generics.  Falling out of the loop reaches the trailing
`return Ok(None)` of the source. -/
def parse_type_generics_go_F (P : ParserFns) (generics : List TypeParam) (st : St) : PRes (Option (List TypeParam)) :=
    if st.tokens.is_eof then .ok (none, st)
    else
      pbind (skip_whitespace_err "Expected a type paramater to follow a typed parameter list." st)
        fun _ st =>
      pbind (P.parse_type_kind st) fun kind st =>
      match kind with
      | some kind => P.parse_type_generics_go (generics ++ [TypeParam.new kind]) st
      | none =>
        let (gt, st) := st.peek_if (fun t =>
          t.kind.is_operator && value_unwrap t.value = ">")
        match gt with
        | some _ =>
          if generics.isEmpty then
            report_at_first st "Expected a type paramater to follow a typed parameter list."
              (some "A type paramater is expected here.")
          else .ok (some generics, st)
        | none =>
          let (cm, st) := st.peek_if (fun t => t.kind.is_comma)
          match cm with
          | some _ => P.parse_type_generics_go generics st
          | none =>
            report_at_first st "Expected a type paramater to follow a typed parameter list."
              (some "A type paramater is expected here.")


/-- The `while !is_eof` loop of `parse_class_implementation`, carrying the
collected interface names. -/
def parse_class_implementation_go_F (P : ParserFns) (paths : List String) (st : St) : PRes (List String) :=
    if st.tokens.is_eof then .ok (paths, st)
    else
      let st := skip_whitespace st
      let (cm, st) := st.peek_if (fun t => t.kind.is_comma)
      match cm with
      | some _ =>
        let st := skip_whitespace st
        let (path, st) := st.peek_if (fun t => t.kind.is_identifier)
        match path with
        | some path =>
          P.parse_class_implementation_go (paths ++ [value_unwrap path.value]) st
        | none =>
          report_unexpected_at_first st
            "Expected a class name to extend but none was found." "Unexpected token: " ""
      | none => .ok (paths, st)

/-- `AstGenerator::parse_class_implementation`. -/
def parse_class_implementation_F (P : ParserFns) (st : St) : PRes (Option (List String)) :=
  let (kw, st) := st.peek_if (fun t =>
    t.kind.is_keyword && t.kind.as_keyword == KeyWord.Implements)
  match kw with
  | none => .ok (none, st)
  | some _ =>
    let st := skip_whitespace st
    let (path, st) := st.peek_if (fun t => t.kind.is_identifier)
    match path with
    | none =>
      report_unexpected_at_first st
        "Expected a class name to implement but none was found." "Unexpected token: " ""
    | some path =>
      pbind (P.parse_class_implementation_go [value_unwrap path.value] st) fun paths st =>
      if !st.tokens.is_eof then .ok (some paths, st)
      else
        report_unexpected_at_first st
          "Expected a class name or interface to implement but none was found."
          "Unexpected token: " ""

/-- The `while !is_eof` loop of `parse_function_inputs`, carrying the
collected inputs; returns them on `break` (a closing parenthesis) or when
the buffer is exhausted. -/
def parse_function_inputs_go_F (P : ParserFns) (inputs : List FunctionInput) (st : St) : PRes (List FunctionInput) :=
    if st.tokens.is_eof then .ok (inputs, st)
    else
      pbind (skip_whitespace_err "Function declaration arguments must be closed." st)
        fun _ st =>
      let (rp, st) := st.peek_if (fun t => t.kind.is_right_parenthesis)
      match rp with
      | some _ => .ok (inputs, st)
      | none =>
        let (pn, st) := st.peek_if (fun t => t.kind.is_identifier)
        match pn with
        | none =>
          report_at_first st "Expected a function parameter name but none was found."
            (some "A name is expected here.")
        | some param_name =>
          pbind (skip_whitespace_err
            "Expected a type statement after a function argument declaration." st) fun _ st =>
          let (col, st) := st.peek_if (fun t => t.kind.is_colon)
          match col with
          | none =>
            report_at_first st
              "Expected a type statement to follow a function declaration argument."
              (some "A type statement is expected here.")
          | some _ =>
            let st := skip_whitespace st
            pbind (P.parse_type_kind st) fun tkOpt st =>
            match tkOpt with
            | none =>
              report_at_first st
                "Expected a type statement to follow a function declaration argument."
                (some "A type statement is expected here.")
            | some type_smt =>
              pbind (skip_whitespace_err "A comma was expected but none was found." st)
                fun _ st =>
              let (cm, st) := st.peek_if (fun t => t.kind.is_comma)
              match cm with
              | some _ =>
                P.parse_function_inputs_go
                  (inputs ++ [FunctionInput.new (value_unwrap param_name.value) (some type_smt)]) st
              | none =>
                let (rp2, st) := st.peek_if (fun t => t.kind.is_right_parenthesis)
                match rp2 with
                | some _ =>
                  .ok (inputs ++ [FunctionInput.new (value_unwrap param_name.value) (some type_smt)], st)
                | none =>
                  report_at_first st
                    "Expected a right parenthesis to follow a function argument declaration."
                    (some "A right parenthesis is expected here.")

/-- `AstGenerator::parse_function_inputs`: the parenthesised argument list
followed by the optional `: returntype`. -/
def parse_function_inputs_F (P : ParserFns) (st : St) :
    PRes (Option (List FunctionInput × Option TypeKind)) :=
  let (lp, st) := st.peek_if (fun t => t.kind.is_left_parenthesis)
  match lp with
  | none => .ok (none, st)
  | some _ =>
    pbind (P.parse_function_inputs_go [] st) fun inputs st =>
    let (col, st) := st.peek_if (fun t => t.kind.is_colon)
    match col with
    | none => .ok (some (inputs, none), st)
    | some _ =>
      pbind (skip_whitespace_err
        "Expected a return type statement after a function declaration." st) fun _ st =>
      pbind (P.parse_type_kind st) fun tkOpt st =>
      match tkOpt with
      | some type_smt => .ok (some (inputs, some type_smt), st)
      | none =>
        report_at_first st
          "Expected a return type statement to follow a function declaration."
          (some "A return type is expected here.")


/-- `AstGenerator::parse_statement`: namespace, then static, then
variable (var/const), then function, then class. -/
def parse_statement_F (P : ParserFns) (st : St) : PRes (Option Statement) :=
    pbind (P.parse_namespace st) fun ns st =>
    match ns with
    | some n => .ok (some (.Namespace n), st)
    | none =>
    pbind (P.parse_static st) fun stOpt st =>
    match stOpt with
    | some stmt => .ok (some stmt, st)
    | none =>
    pbind (P.parse_variable st) fun varOpt st =>
    match varOpt with
    | some (var, constant) =>
      if constant then .ok (some (.Const var), st) else .ok (some (.Var var), st)
    | none =>
    pbind (P.parse_function st) fun funcOpt st =>
    match funcOpt with
    | some func => .ok (some (.Function func), st)
    | none =>
    pbind (P.parse_class st) fun clsOpt st =>
    match clsOpt with
    | some cls => .ok (some (.Class cls), st)
    | none => .ok (none, st)

/-- `AstGenerator::parse_namespace`: the `namespace` keyword, a name, then
the path loop (`parse_namespace_go`). -/
def parse_namespace_F (P : ParserFns) (st : St) : PRes (Option Namespace) :=
    let (kw, st) := st.peek_if (fun t =>
      t.kind.is_keyword && t.kind.as_keyword == KeyWord.Namespace)
    match kw with
    | none => .ok (none, st)
    | some _ =>
      let st := skip_whitespace st
      let (nameOpt, st) := st.peek_if (fun t => t.kind.is_identifier)
      match nameOpt with
      | some name => P.parse_namespace_go name [] st
      | none => report_at_first st "Expected a namespace name." none

/-- The `loop` inside `parse_namespace`, carrying the name token and the
path parts collected so far.  In the final branch the source builds the
inline label from `self.tokens.peek().unwrap()` — the same token
`first()` denotes, which is used here. -/
def parse_namespace_go_F (P : ParserFns) (name : Token) (path : List String) (st : St) : PRes (Option Namespace) :=
    let st := skip_whitespace st
    let (bs, st) := st.peek_if (fun t => t.kind.is_backslash)
    match bs with
    | some _ =>
      let (idt, st) := st.peek_if (fun t => t.kind.is_identifier)
      match idt with
      | some ident => P.parse_namespace_go name (path ++ [value_unwrap ident.value]) st
      | none => report_at_first st "Expected identifier after backslash." none
    | none =>
      match st.tokens.find_after (fun t => t.kind.is_left_brace)
          (fun t => t.kind.is_whitespace) with
      | some (amt, _) =>
        let st := st.peek_inc amt
        pbind (P.parse_block st) fun blockOpt st =>
        match blockOpt with
        | some block =>
          let (se, st) := st.peek_if (fun t => t.kind.is_statement_end)
          match se with
          | some _ =>
            .ok (some (Namespace.mk (Path.from (value_unwrap name.value) path)
              (some (.Block block))), st)
          | none =>
            report_at_first st "Expected statement end after namespace statement." none
        | none =>
          report_at_first st "Expected block after namespace with opening brace." none
      | none =>
        let (se, st) := st.peek_if (fun t => t.kind.is_statement_end)
        match se with
        | some _ =>
          .ok (some (Namespace.mk (Path.from (value_unwrap name.value) path) none), st)
        | none =>
          report_unexpected_at_first st "Unable to parse namespace path."
            "Unexpected token: " ""

/-- `AstGenerator::parse_static`: a visibility keyword followed by
`static`, or a bare `static`; both recurse into `parse_statement`. -/
def parse_static_F (P : ParserFns) (st : St) : PRes (Option Statement) :=
    match st.tokens.first_if (fun t =>
        t.kind.is_keyword && t.kind.as_keyword.is_visibility) with
    | some _ =>
      match st.tokens.second_if (fun t =>
          t.kind.is_keyword && t.kind.as_keyword == KeyWord.Static) with
      | some _ =>
        pbind (parse_visibility st) fun visOpt st =>
        match visOpt with
        | none => .error (.panicked "parse_visibility().unwrap() on None")
        | some visibility =>
          let st := (st.peek).2
          let st := skip_whitespace st
          pbind (P.parse_statement st) fun stmtOpt st =>
          match stmtOpt with
          | some stmt => .ok (some (.Static (Static.new visibility stmt)), st)
          | none =>
            report_at_first st
              "Expected a statement after a static keyword, but found none."
              (some "A statement was expected here.")
      | none => .ok (none, st)
    | none =>
      match st.tokens.first_if (fun t =>
          t.kind.is_keyword && t.kind.as_keyword == KeyWord.Static) with
      | some _ =>
        let st := (st.peek).2
        let st := skip_whitespace st
        pbind (P.parse_statement st) fun stmtOpt st =>
        match stmtOpt with
        | some stmt => .ok (some (.Static (Static.new Visibility.Private stmt)), st)
        | none =>
          report_at_first st
            "Expected a statement after a static keyword, but found none."
            (some "A statement was expected here.")
      | none => .ok (none, st)

/-- `AstGenerator::parse_variable`: optional visibility, `var`/`const`, a
name, an optional `: type`, then `parse_variable_after_type`. -/
def parse_variable_F (P : ParserFns) (st : St) : PRes (Option (Variable × Bool)) :=
    pbind (parse_visibility st) fun visOpt st =>
    let visibility := visOpt.getD Visibility.Private
    let (decl_keyword, st) := st.peek_if (fun t =>
      if t.kind.is_keyword then
        t.kind.as_keyword == KeyWord.Const || t.kind.as_keyword == KeyWord.Var
      else false)
    match decl_keyword with
    | none => .ok (none, st)
    | some keyword =>
      let is_constant := keyword.kind.as_keyword == KeyWord.Const
      pbind (skip_whitespace_err "A variable name was expected but none was found." st)
        fun _ st =>
      let (idOpt, st) := st.peek_if (fun t => t.kind.is_identifier)
      match idOpt with
      | none =>
        report_unexpected_at_first st "A name must follow a variable declaration"
          "Unexpected token: \"" "\""
      | some identifier =>
        let (colonOpt, st) := st.peek_if (fun t => t.kind.is_colon)
        match colonOpt with
        | some _ =>
          pbind (P.parse_type_kind st) fun tkOpt st =>
          match tkOpt with
          | some type_smt =>
            P.parse_variable_after_type identifier visibility is_constant
              (some type_smt) st
          | none =>
            report_at_first st
              "Expected type statement to follow a variable declaration with a colon."
              (some "A type statement is expected here.")
        | none =>
          P.parse_variable_after_type identifier visibility is_constant none st

/-- Second half of `parse_variable` (after the optional type annotation):
the `=`/initialiser/semicolon handling. -/
def parse_variable_after_type_F (P : ParserFns) (identifier : Token)
    (visibility : Visibility) (is_constant : Bool) (type_node : Option TypeKind)
    (st : St) : PRes (Option (Variable × Bool)) :=
    pbind (skip_whitespace_err "An operator was expected but none was found." st)
      fun _ st =>
    let (eq, st) := st.peek_if (fun t =>
      t.kind.is_operator && value_unwrap t.value = "=")
    match eq with
    | some _ =>
      pbind (skip_whitespace_err "An expression was expected but none was found." st)
        fun _ st =>
      pbind (P.parse_expression st) fun exprOpt st =>
      match exprOpt with
      | some expr =>
        pbind (skip_whitespace_err "A semicolon was expected but none was found." st)
          fun _ st =>
        let (se, st) := st.peek_if (fun t => t.kind.is_statement_end)
        match se with
        | some _ =>
          .ok (some (Variable.new (value_unwrap identifier.value) type_node visibility
            (some expr), is_constant), st)
        | none =>
          report_at_first st "Expected a semicolon to follow a variable declaration."
            (some "A semicolon is expected here.")
      | none =>
        report_at_first st "Expected an expression to follow a variable declaration."
          (some "An expression is expected here.")
    | none =>
      let (se, st) := st.peek_if (fun t => t.kind.is_statement_end)
      match se with
      | some _ =>
        .ok (some (Variable.new (value_unwrap identifier.value) type_node visibility
          none, is_constant), st)
      | none =>
        report_at_first st
          "Expected an end of statement to follow an uninitialized declaration."
          (some "A semi-colon is expected here.")

/-- `AstGenerator::parse_function`. -/
def parse_function_F (P : ParserFns) (st : St) : PRes (Option Function) :=
    let (kw, st) := st.peek_if (fun t =>
      t.kind.is_keyword && t.kind.as_keyword == KeyWord.Function)
    match kw with
    | none => .ok (none, st)
    | some _ =>
      pbind (parse_visibility st) fun _ st =>
      pbind (skip_whitespace_err "A function input list was expected but none was found." st)
        fun _ st =>
      let (nOpt, st) := st.peek_if (fun t => t.kind.is_identifier)
      let name : Option String := match nOpt with
        | some n => n.value
        | none => none
      pbind (skip_whitespace_err "A function input list was expected but none was found." st)
        fun _ st =>
      pbind (P.parse_function_inputs st) fun fioOpt st =>
      match fioOpt with
      | some (inputs, outputs) =>
        pbind (skip_whitespace_err "A block was expected but none was found." st)
          fun _ st =>
        pbind (P.parse_block st) fun blockOpt st =>
        match blockOpt with
        | some block =>
          .ok (some (Function.mk name inputs (.Block block) outputs Visibility.Public 0), st)
        | none =>
          report_at_first st "Expected a block to follow a function declaration."
            (some "A block is expected here.")
      | none =>
        report_at_first st
          "Expected a function input list to follow a function declaration."
          (some "A function input list is expected here.")

/-- `AstGenerator::parse_class`. -/
def parse_class_F (P : ParserFns) (st : St) : PRes (Option Class) :=
    let (kw, st) := st.peek_if (fun t =>
      t.kind.is_keyword && t.kind.as_keyword == KeyWord.Class)
    match kw with
    | none => .ok (none, st)
    | some _ =>
      let st := skip_whitespace st
      let (nameOpt, st) := st.peek_if (fun t => t.kind.is_identifier)
      match nameOpt with
      | none =>
        report_unexpected_at_first st "Expected a class name but none was found."
          "Unexpected token: " ""
      | some name =>
        let st := skip_whitespace st
        pbind (parse_class_extension st) fun extends_ st =>
        let st := skip_whitespace st
        pbind (P.parse_class_implementation st) fun implements st =>
        pbind (P.parse_class_body st) fun bodyOpt st =>
        let nid := st.local_id + 1
        let st := { st with local_id := nid }
        .ok (some (Class.mk (value_unwrap name.value) extends_ implements
          (bodyOpt.getD ClassBody.new) nid), st)

/-- `AstGenerator::parse_class_property` (given the visibility). -/
def parse_class_property_F (P : ParserFns) (visibility : Visibility) (st : St) : PRes (Option ClassProperty) :=
    let (nameOpt, st) := st.peek_if (fun t => t.kind.is_identifier)
    match nameOpt with
    | none => .ok (none, st)
    | some name =>
      let (colonOpt, st) := st.peek_if (fun t => t.kind.is_colon)
      match colonOpt with
      | some _ =>
        let st := skip_whitespace st
        pbind (P.parse_type_kind st) fun tkOpt st =>
        match tkOpt with
        | some kind => P.parse_class_property_after_type name visibility (some kind) st
        | none =>
          report_at_first st
            "Expected a type statement to follow a property declaration."
            (some "A type statement is expected here.")
      | none => P.parse_class_property_after_type name visibility none st

/-- Second half of `parse_class_property` (after the optional type
annotation). -/
def parse_class_property_after_type_F (P : ParserFns) (name : Token)
    (visibility : Visibility) (type_node : Option TypeKind)
    (st : St) : PRes (Option ClassProperty) :=
    let (eq, st) := st.peek_if (fun t =>
      t.kind.is_operator && value_unwrap t.value = "=")
    match eq with
    | some _ =>
      pbind (skip_whitespace_err "An expression was expected but none was found." st)
        fun _ st =>
      pbind (P.parse_expression st) fun exprOpt st =>
      match exprOpt with
      | some expr =>
        pbind (skip_whitespace_err "A semicolon was expected but none was found." st)
          fun _ st =>
        let (se, st) := st.peek_if (fun t => t.kind.is_statement_end)
        match se with
        | some _ =>
          .ok (some (ClassProperty.new (value_unwrap name.value) visibility type_node
            (some expr)), st)
        | none =>
          report_at_first st "Expected a semicolon to follow a variable declaration."
            (some "A semicolon is expected here.")
      | none =>
        report_at_first st "Expected an expression to follow a variable declaration."
          (some "An expression is expected here.")
    | none =>
      let (se, st) := st.peek_if (fun t => t.kind.is_statement_end)
      match se with
      | some _ =>
        .ok (some (ClassProperty.new (value_unwrap name.value) visibility type_node
          none), st)
      | none =>
        report_at_first st
          "Expected an end of statement to follow an uninitialized declaration."
          (some "A semi-colon is expected here.")

/-- `AstGenerator::parse_class_allowed_statement`. -/
def parse_class_allowed_statement_F (P : ParserFns) (st : St) : PRes (Option ClassAllowedStatement) :=
    pbind (parse_visibility st) fun visOpt st =>
    let visibility := visOpt.getD Visibility.Private
    let (stat, st) := st.peek_if (fun t =>
      t.kind.is_keyword && t.kind.as_keyword == KeyWord.Static)
    match stat with
    | some _ =>
      let st := skip_whitespace st
      pbind (P.parse_class_property visibility st) fun propOpt st =>
      match propOpt with
      | some property => .ok (some (.Static (.Property property)), st)
      | none =>
        pbind (P.parse_function st) fun funcOpt st =>
        match funcOpt with
        | some func =>
          .ok (some (.Static (.Method (func.set_visibility visibility))), st)
        | none =>
          report_unexpected_at_first st
            "Expected a property or function declaration but none was found."
            "Unexpected token: " ""
    | none =>
      pbind (skip_whitespace_err "Expected a class statement but none was found." st)
        fun _ st =>
      pbind (P.parse_class_property visibility st) fun propOpt st =>
      match propOpt with
      | some property => .ok (some (.Property property), st)
      | none =>
        pbind (P.parse_function st) fun funcOpt st =>
        match funcOpt with
        | some func => .ok (some (.Method (func.set_visibility visibility)), st)
        | none =>
          report_unexpected_at_first st
            "Expected a property or function declaration but none was found."
            "Unexpected token: " ""

/-- `AstGenerator::parse_class_body`. -/
def parse_class_body_F (P : ParserFns) (st : St) : PRes (Option ClassBody) :=
    let (lb, st) := st.peek_if (fun t => t.kind.is_left_brace)
    match lb with
    | none => .ok (none, st)
    | some _ =>
      pbind (P.parse_class_body_go ClassBody.new st) fun body st =>
      .ok (some body, st)

/-- The `while !is_eof && first is not a right brace` loop of
`parse_class_body`. -/
def parse_class_body_go_F (P : ParserFns) (body : ClassBody) (st : St) : PRes ClassBody :=
    if !st.tokens.is_eof &&
        !(st.tokens.first_if (fun t => t.kind.is_right_brace)).isSome then
      pbind (skip_whitespace_err
        "Expected a right brace to close the class body, found none." st) fun _ st =>
      let (rb, st) := st.peek_if (fun t => t.kind.is_right_brace)
      match rb with
      | some _ => .ok (body, st)
      | none =>
        pbind (P.parse_class_property Visibility.Private st) fun propOpt st =>
        match propOpt with
        | some property => P.parse_class_body_go (body.push_property property) st
        | none =>
          pbind (P.parse_function st) fun methodOpt st =>
          match methodOpt with
          | some method => P.parse_class_body_go (body.push_method method) st
          | none =>
            pbind (P.parse_class_allowed_statement st) fun otherOpt st =>
            match otherOpt with
            | some other => P.parse_class_body_go (body.push_other other) st
            | none =>
              report_unexpected_at_first st
                "Classes must contain a property, method, import or macro."
                "Unexpected token: \"" "\" inside class body."
    else .ok (body, st)

/-- `AstGenerator::parse_block`. -/
def parse_block_F (P : ParserFns) (st : St) : PRes (Option (List Expression)) :=
    let (lb, st) := st.peek_if (fun t => t.kind.is_left_brace)
    match lb with
    | none => .ok (none, st)
    | some _ => P.parse_block_go [] st

/-- The `while !is_eof` loop of `parse_block`, carrying the expressions
collected so far. -/
def parse_block_go_F (P : ParserFns) (expressions : List Expression) (st : St) : PRes (Option (List Expression)) :=
    if st.tokens.is_eof then .ok (some expressions, st)
    else
      pbind (skip_whitespace_err "Expected a statement to follow a block." st)
        fun _ st =>
      pbind (P.parse_expression st) fun exprOpt st =>
      match exprOpt with
      | some expr => P.parse_block_go (expressions ++ [expr]) st
      | none =>
        let (rb, st) := st.peek_if (fun t => t.kind.is_right_brace)
        match rb with
        | some _ => .ok (some expressions, st)
        | none =>
          let (se, st) := st.peek_if (fun t => t.kind.is_statement_end)
          match se with
          | some _ => P.parse_block_go (expressions ++ [Expression.EndOfLine]) st
          | none =>
            let (ret, st) := st.peek_if (fun t =>
              t.kind.is_keyword && t.kind.as_keyword == KeyWord.Return)
            match ret with
            | some _ =>
              let st := skip_whitespace st
              pbind (P.parse_expression st) fun exprOpt st =>
              let expressions := match exprOpt with
                | some expr =>
                  expressions ++ [Expression.Statement (.Return (Return.new (some expr)))]
                | none => expressions
              let (se2, st) := st.peek_if (fun t => t.kind.is_statement_end)
              match se2 with
              | some _ => P.parse_block_go expressions st
              | none =>
                report_at_first st
                  "Expected an expression to follow a return statement."
                  (some "Expected an expression here.")
            | none =>
              report_at_first st "Expected a statement to follow a block."
                (some "A statement is expected here.")

/-- `AstGenerator::parse_expression`: run the seven alternatives in their
source order (statement, call, member, new, array, object, literal), each
overwriting `left` when it matches, then attach a trailing operator via
`parse_expression_tail` (the "check left" block of the source). -/
def parse_expression_F (P : ParserFns) (st : St) : PRes (Option Expression) :=
    pbind (P.parse_statement st) fun stmtOpt st =>
    let left : Option Expression := match stmtOpt with
      | some statement_expr => some (.Statement statement_expr)
      | none => none
    pbind (P.parse_call_expression st) fun callOpt st =>
    let left := match callOpt with
      | some call_expr => some (.Call call_expr)
      | none => left
    pbind (P.parse_member_expression st) fun memOpt st =>
    let left := match memOpt with
      | some member_expr => some (.Member member_expr)
      | none => left
    pbind (P.parse_new_expression st) fun newOpt st =>
    let left := match newOpt with
      | some new_expr => some (.New new_expr)
      | none => left
    pbind (P.parse_array_expression st) fun arrOpt st =>
    let left := match arrOpt with
      | some array_expr => some (.Array array_expr)
      | none => left
    pbind (P.parse_object_expression st) fun objOpt st =>
    let left := match objOpt with
      | some object_expr => some (.Object object_expr)
      | none => left
    pbind (parse_literal_expression st) fun litOpt st =>
    let left := match litOpt with
      | some literal_expr => some (.Literal literal_expr)
      | none => left
    P.parse_expression_tail left st

/-- The "check left" block of `parse_expression`: when something matched,
skip whitespace and, if an operator follows, parse the right operand as a
full expression again. -/
def parse_expression_tail_F (P : ParserFns) (leftOpt : Option Expression) (st : St) : PRes (Option Expression) :=
    match leftOpt with
    | none => .ok (none, st)
    | some left =>
      let st := skip_whitespace st
      let (opsOpt, st) := st.peek_if (fun t => t.kind.is_operator)
      match opsOpt with
      | none => .ok (some left, st)
      | some ops =>
        let st := skip_whitespace st
        match AnyOperation.from_string (value_unwrap ops.value) with
        | some op =>
          let st := skip_whitespace st
          pbind (P.parse_expression st) fun rightOpt st =>
          match rightOpt with
          | some right => .ok (some (.Operation (Operation.new left op right)), st)
          | none =>
            report_at_first st "Expected an expression to follow an operation."
              (some "An expression is expected here.")
        | none =>
          .error (.report ops.range "Unknown operator: \x7b\x7d"
            (some (value_unwrap ops.value)))

/-- `AstGenerator::parse_call_expression`. -/
def parse_call_expression_F (P : ParserFns) (st : St) : PRes (Option Call) :=
    match st.tokens.first_if (fun t => t.kind.is_identifier) with
    | some identifier =>
      pbind (P.parse_function_call_inputs st) fun argsOpt st =>
      match argsOpt with
      | some args => .ok (some (Call.new (value_unwrap identifier.value) args), st)
      | none => .ok (none, st)
    | none => .ok (none, st)

/-- `AstGenerator::parse_member_expression`. -/
def parse_member_expression_F (P : ParserFns) (st : St) : PRes (Option MemberListNode) :=
    match st.tokens.first_if (fun t => t.kind.is_identifier) with
    | none => .ok (none, st)
    | some identifier =>
      match st.tokens.second_if (fun t => t.kind.is_accessor) with
      | none => .ok (none, st)
      | some accessor =>
        let akOpt : Option MemberLookup := match value_unwrap accessor.value with
          | "." => some .Dynamic
          | "::" => some .Static
          | _ => none
        match akOpt with
        | none => .error (.panicked "unreachable accessor value in parse_member_expression")
        | some access_kind =>
          let st := st.peek_inc 2
          pbind (P.parse_expression st) fun meOpt st =>
          match meOpt with
          | some member_expr =>
            .ok (some (MemberListNode.new member_expr identifier access_kind), st)
          | none =>
            report_at_first st "Expected an expression to follow a property member."
              (some "An expression was expected here.")

/-- `AstGenerator::parse_new_expression`. -/
def parse_new_expression_F (P : ParserFns) (st : St) : PRes (Option NewCall) :=
    match st.tokens.first_if (fun t =>
        t.kind.is_keyword && t.kind.as_keyword.is_new) with
    | none => .ok (none, st)
    | some _ =>
      match st.tokens.find_after_nth 1 (fun t => t.kind.is_identifier)
          (fun t => t.kind.is_whitespace) with
      | some (inc, name) =>
        let st := st.peek_inc inc
        pbind (P.parse_function_call_inputs st) fun argsOpt st =>
        match argsOpt with
        | some args => .ok (some (NewCall.new (value_unwrap name.value) args), st)
        | none =>
          report_at_first st
            "Expected a function call inputs to follow a new expression."
            (some "Function inputs expected here.")
      | none =>
        match st.tokens.second with
        | some t2 =>
          .error (.report t2.range "Expected a name to follow a new expression."
            (some "A name was expected here."))
        | none => .error (.panicked "second() unwrap on empty token stream")

/-- `AstGenerator::parse_array_expression`. -/
def parse_array_expression_F (P : ParserFns) (st : St) : PRes (Option Array) :=
    let (lb, st) := st.peek_if (fun t => t.kind.is_left_bracket)
    match lb with
    | none => .ok (none, st)
    | some _ => P.parse_array_expression_go [] st

/-- The `while !is_eof` loop of `parse_array_expression`, carrying the
elements collected so far.  When the buffer is exhausted the loop falls out
to the function's trailing `return Ok(None)`, discarding the elements. -/
def parse_array_expression_go_F (P : ParserFns) (elements : List Expression) (st : St) : PRes (Option Array) :=
    if st.tokens.is_eof then .ok (none, st)
    else
      pbind (skip_whitespace_err "Array\x27s must be closed." st) fun _ st =>
      pbind (P.parse_expression st) fun elOpt st =>
      match elOpt with
      | some element =>
        pbind (skip_whitespace_err "Array\x27s must be closed." st) fun _ st =>
        let (cm, st) := st.peek_if (fun t => t.kind.is_comma)
        match cm with
        | some _ => P.parse_array_expression_go (elements ++ [element]) st
        | none =>
          pbind (skip_whitespace_err "Array\x27s must be closed." st) fun _ st =>
          let (rb, st) := st.peek_if (fun t => t.kind.is_right_bracket)
          match rb with
          | some _ => .ok (some (Array.new (elements ++ [element]) none), st)
          | none =>
            report_at_first st "A comma is required to seperate array elements."
              (some "A comma is expected here.")
      | none =>
        let (rb, st) := st.peek_if (fun t => t.kind.is_right_bracket)
        match rb with
        | some _ => .ok (some (Array.new elements none), st)
        | none =>
          report_unexpected_at_first st
            "Expected an expression to follow an array element." "Unexpected Token: " ""

/-- `AstGenerator::parse_object_expression`. -/
def parse_object_expression_F (P : ParserFns) (st : St) : PRes (Option Object) :=
    let (lb, st) := st.peek_if (fun t => t.kind.is_left_brace)
    match lb with
    | none => .ok (none, st)
    | some _ => P.parse_object_expression_go Object.empty st

/-- The `while !is_eof` loop of `parse_object_expression`.  As with arrays,
exhausting the buffer falls out to a trailing `return Ok(None)`. -/
def parse_object_expression_go_F (P : ParserFns) (object : Object) (st : St) : PRes (Option Object) :=
    if st.tokens.is_eof then .ok (none, st)
    else
      pbind (skip_whitespace_err "Object body must be closed." st) fun _ st =>
      let (propOpt, st) := st.peek_if (fun t => t.kind.is_identifier)
      match propOpt with
      | some property =>
        let (col, st) := st.peek_if (fun t => t.kind.is_colon)
        match col with
        | some _ =>
          pbind (skip_whitespace_err "Object body must be closed." st) fun _ st =>
          pbind (P.parse_expression st) fun exprOpt st =>
          match exprOpt with
          | some expression =>
            let prop := ObjectProperty.new (value_unwrap property.value) expression
            let (cm, st) := st.peek_if (fun t => t.kind.is_comma)
            match cm with
            | some _ => P.parse_object_expression_go (object.push_property prop) st
            | none =>
              pbind (skip_whitespace_err "Object body must be closed." st) fun _ st =>
              let (rb, st) := st.peek_if (fun t => t.kind.is_right_brace)
              match rb with
              | some _ => .ok (some (object.push_property prop), st)
              | none =>
                report_at_first st "Expected a right brace to close an object body."
                  (some "A right brace was expected here.")
          | none =>
            report_at_first st "Expected an expression to follow a property."
              (some "An expression was expected here.")
        | none =>
          report_unexpected_at_first st "Expected a colon to follow a property name."
            "Unexpected Token: " ""
      | none =>
        let (rb, st) := st.peek_if (fun t => t.kind.is_right_brace)
        match rb with
        | some _ => .ok (some object, st)
        | none =>
          report_at_first st "Expected an object property to follow an object element."
            (some "An object property was expected here.")

/-- `AstGenerator::parse_function_call_inputs`: requires `(` as the second
token, consumes both, then the argument loop. -/
def parse_function_call_inputs_F (P : ParserFns) (st : St) : PRes (Option (List Expression)) :=
    match st.tokens.second_if (fun t => t.kind.is_left_parenthesis) with
    | none => .ok (none, st)
    | some _ =>
      let st := st.peek_inc 2
      P.parse_function_call_inputs_go [] st

/-- The `while !is_eof` loop of `parse_function_call_inputs`.  Falling out
of the loop reaches a `create_report!` that unwraps `first()` on the empty
stream — a panic in the source. -/
def parse_function_call_inputs_go_F (P : ParserFns) (inputs : List Expression) (st : St) : PRes (Option (List Expression)) :=
    if st.tokens.is_eof then
      report_at_first st "Expected an expression to follow a function input."
        (some "An expression is expected here.")
    else
      pbind (skip_whitespace_err "Function arguments must be closed." st) fun _ st =>
      pbind (P.parse_expression st) fun exprOpt st =>
      match exprOpt with
      | some expr =>
        let (cm, st) := st.peek_if (fun t => t.kind.is_comma)
        match cm with
        | some _ => P.parse_function_call_inputs_go (inputs ++ [expr]) st
        | none =>
          let (rp, st) := st.peek_if (fun t => t.kind.is_right_parenthesis)
          match rp with
          | some _ => .ok (some (inputs ++ [expr]), st)
          | none =>
            report_at_first st "Expected a comma to follow a function input."
              (some "A comma is expected here.")
      | none =>
        let (rp, st) := st.peek_if (fun t => t.kind.is_right_parenthesis)
        match rp with
        | some _ => .ok (some inputs, st)
        | none =>
          report_at_first st "Expected an expression to follow a function input."
            (some "An expression is expected here.")



/-- The fueled fixpoint of the productions: at fuel 0 every production
fails with the artificial `outOfFuel`; at `fuel + 1` each production is its
`*_F` body over the productions at `fuel`. -/
def parserFns : Nat → ParserFns
  | 0 =>
  {
    parse_statement := fun _ => .error .outOfFuel
    parse_namespace := fun _ => .error .outOfFuel
    parse_namespace_go := fun _ _ _ => .error .outOfFuel
    parse_static := fun _ => .error .outOfFuel
    parse_variable := fun _ => .error .outOfFuel
    parse_variable_after_type := fun _ _ _ _ _ => .error .outOfFuel
    parse_function := fun _ => .error .outOfFuel
    parse_class := fun _ => .error .outOfFuel
    parse_class_property := fun _ _ => .error .outOfFuel
    parse_class_property_after_type := fun _ _ _ _ => .error .outOfFuel
    parse_class_allowed_statement := fun _ => .error .outOfFuel
    parse_class_body := fun _ => .error .outOfFuel
    parse_class_body_go := fun _ _ => .error .outOfFuel
    parse_block := fun _ => .error .outOfFuel
    parse_block_go := fun _ _ => .error .outOfFuel
    parse_expression := fun _ => .error .outOfFuel
    parse_expression_tail := fun _ _ => .error .outOfFuel
    parse_call_expression := fun _ => .error .outOfFuel
    parse_member_expression := fun _ => .error .outOfFuel
    parse_new_expression := fun _ => .error .outOfFuel
    parse_array_expression := fun _ => .error .outOfFuel
    parse_array_expression_go := fun _ _ => .error .outOfFuel
    parse_object_expression := fun _ => .error .outOfFuel
    parse_object_expression_go := fun _ _ => .error .outOfFuel
    parse_function_call_inputs := fun _ => .error .outOfFuel
    parse_function_call_inputs_go := fun _ _ => .error .outOfFuel
    parse_type_kind := fun _ => .error .outOfFuel
    parse_type_union_go := fun _ _ => .error .outOfFuel
    parse_type_generics := fun _ => .error .outOfFuel
    parse_type_generics_go := fun _ _ => .error .outOfFuel
    parse_class_implementation := fun _ => .error .outOfFuel
    parse_class_implementation_go := fun _ _ => .error .outOfFuel
    parse_function_inputs := fun _ => .error .outOfFuel
    parse_function_inputs_go := fun _ _ => .error .outOfFuel
  }
  | fuel + 1 =>
  let P := parserFns fuel
  {
    parse_statement := parse_statement_F P
    parse_namespace := parse_namespace_F P
    parse_namespace_go := parse_namespace_go_F P
    parse_static := parse_static_F P
    parse_variable := parse_variable_F P
    parse_variable_after_type := parse_variable_after_type_F P
    parse_function := parse_function_F P
    parse_class := parse_class_F P
    parse_class_property := parse_class_property_F P
    parse_class_property_after_type := parse_class_property_after_type_F P
    parse_class_allowed_statement := parse_class_allowed_statement_F P
    parse_class_body := parse_class_body_F P
    parse_class_body_go := parse_class_body_go_F P
    parse_block := parse_block_F P
    parse_block_go := parse_block_go_F P
    parse_expression := parse_expression_F P
    parse_expression_tail := parse_expression_tail_F P
    parse_call_expression := parse_call_expression_F P
    parse_member_expression := parse_member_expression_F P
    parse_new_expression := parse_new_expression_F P
    parse_array_expression := parse_array_expression_F P
    parse_array_expression_go := parse_array_expression_go_F P
    parse_object_expression := parse_object_expression_F P
    parse_object_expression_go := parse_object_expression_go_F P
    parse_function_call_inputs := parse_function_call_inputs_F P
    parse_function_call_inputs_go := parse_function_call_inputs_go_F P
    parse_type_kind := parse_type_kind_F P
    parse_type_union_go := parse_type_union_go_F P
    parse_type_generics := parse_type_generics_F P
    parse_type_generics_go := parse_type_generics_go_F P
    parse_class_implementation := parse_class_implementation_F P
    parse_class_implementation_go := parse_class_implementation_go_F P
    parse_function_inputs := parse_function_inputs_F P
    parse_function_inputs_go := parse_function_inputs_go_F P
  }

/-- `AstGenerator::parse_statement` at the given recursion budget. -/
def parse_statement (fuel : Nat) : St → PRes (Option Statement) := (parserFns fuel).parse_statement

/-- `AstGenerator::parse_namespace` at the given recursion budget. -/
def parse_namespace (fuel : Nat) : St → PRes (Option Namespace) := (parserFns fuel).parse_namespace

/-- `AstGenerator::parse_static` at the given recursion budget. -/
def parse_static (fuel : Nat) : St → PRes (Option Statement) := (parserFns fuel).parse_static

/-- `AstGenerator::parse_variable` at the given recursion budget. -/
def parse_variable (fuel : Nat) : St → PRes (Option (Variable × Bool)) := (parserFns fuel).parse_variable

/-- `AstGenerator::parse_function` at the given recursion budget. -/
def parse_function (fuel : Nat) : St → PRes (Option Function) := (parserFns fuel).parse_function

/-- `AstGenerator::parse_class` at the given recursion budget. -/
def parse_class (fuel : Nat) : St → PRes (Option Class) := (parserFns fuel).parse_class

/-- `AstGenerator::parse_class_body` at the given recursion budget. -/
def parse_class_body (fuel : Nat) : St → PRes (Option ClassBody) := (parserFns fuel).parse_class_body

/-- `AstGenerator::parse_block` at the given recursion budget. -/
def parse_block (fuel : Nat) : St → PRes (Option (List Expression)) := (parserFns fuel).parse_block

/-- `AstGenerator::parse_expression` at the given recursion budget. -/
def parse_expression (fuel : Nat) : St → PRes (Option Expression) := (parserFns fuel).parse_expression

/-- `AstGenerator::parse_expression_tail` at the given recursion budget. -/
def parse_expression_tail (fuel : Nat) : Option Expression → St → PRes (Option Expression) := (parserFns fuel).parse_expression_tail

/-- `AstGenerator::parse_call_expression` at the given recursion budget. -/
def parse_call_expression (fuel : Nat) : St → PRes (Option Call) := (parserFns fuel).parse_call_expression

/-- `AstGenerator::parse_member_expression` at the given recursion budget. -/
def parse_member_expression (fuel : Nat) : St → PRes (Option MemberListNode) := (parserFns fuel).parse_member_expression

/-- `AstGenerator::parse_new_expression` at the given recursion budget. -/
def parse_new_expression (fuel : Nat) : St → PRes (Option NewCall) := (parserFns fuel).parse_new_expression

/-- `AstGenerator::parse_array_expression` at the given recursion budget. -/
def parse_array_expression (fuel : Nat) : St → PRes (Option Array) := (parserFns fuel).parse_array_expression

/-- `AstGenerator::parse_object_expression` at the given recursion budget. -/
def parse_object_expression (fuel : Nat) : St → PRes (Option Object) := (parserFns fuel).parse_object_expression

/-- `AstGenerator::parse_function_call_inputs` at the given recursion budget. -/
def parse_function_call_inputs (fuel : Nat) : St → PRes (Option (List Expression)) := (parserFns fuel).parse_function_call_inputs

/-- `AstGenerator::parse_type_kind` at the given recursion budget. -/
def parse_type_kind (fuel : Nat) : St → PRes (Option TypeKind) := (parserFns fuel).parse_type_kind

/-- `AstGenerator::parse_class_implementation` at the given recursion budget. -/
def parse_class_implementation (fuel : Nat) : St → PRes (Option (List String)) := (parserFns fuel).parse_class_implementation

/-- `AstGenerator::parse_function_inputs` at the given recursion budget. -/
def parse_function_inputs (fuel : Nat) : St → PRes (Option (List FunctionInput × Option TypeKind)) := (parserFns fuel).parse_function_inputs

/-- `AstGenerator::parse`: one top-level step — try a statement, then an
expression, then skip a whitespace token, else fail with the recoverable
`ParserError`. -/
def parse (fuel : Nat) (st : St) : PRes Unit :=
  let start := match st.tokens.first with
    | some token => token.range
    | none => ⟨0, 0⟩
  pbind (parse_statement fuel st) fun stmtOpt st =>
  match stmtOpt with
  | some stmt =>
    match st.tokens.prev with
    | some prevTok =>
      .ok ((), { st with
        body := st.body.push_node (Node.new (.Statement stmt) start prevTok.range) })
    | none => .error (.panicked "prev() unwrap on None")
  | none =>
  pbind (parse_expression fuel st) fun leftOpt st =>
  match leftOpt with
  | some left =>
    match st.tokens.prev with
    | some prevTok =>
      .ok ((), { st with
        body := st.body.push_node (Node.new (.Expression left) start prevTok.range) })
    | none => .error (.panicked "prev() unwrap on None")
  | none =>
  if ((st.tokens.first).getD ⟨.Whitespace, ⟨0, 1⟩, none⟩).kind.is_whitespace then
    .ok ((), (st.peek).2)
  else
    match st.tokens.first with
    | none => .error (.panicked "first() on empty token stream")
    | some ft =>
      match st.tokens.prev with
      | some prevTok =>
        .error (.parser ("Unexpected token: " ++ ft.kind.to_string)
          "Unable to proceed parsing. This token was unexpected at this time."
          (combine_ranges [start, prevTok.range]) st.body)
      | none => .error (.panicked "prev() unwrap on None")

/-- The `while !is_eof` loop of `AstGenerator::begin_parse`. -/
def begin_parse_go : Nat → St → PRes AstBody
  | 0, _ => .error .outOfFuel
  | fuel + 1, st =>
    if st.tokens.is_eof then .ok (st.body, st)
    else
      let st := skip_whitespace st
      pbind (parse fuel st) fun _ st => begin_parse_go fuel st

/-- `AstGenerator::begin_parse` on a fresh generator (empty body, local id
0), as `Parser::parse_script` invokes it after tokenizing. -/
def begin_parse (fuel : Nat) (tokens : TokenStream) (src : String) :
    Except PErr AstBody :=
  match begin_parse_go fuel ⟨tokens, AstBody.new, 0, src⟩ with
  | .ok (body, _) => .ok body
  | .error e => .error e

/-- End-to-end parse of a source string, mirroring `Parser::parse_script`
(minus the context-store bookkeeping): tokenize, wrap in a `TokenStream`,
run `begin_parse`.  The fuel `src.length + 64` amply covers the recursion
depth of every input evaluated in this file. -/
def parse_source (src : String) : Except PErr AstBody :=
  begin_parse (src.length + 64) (TokenStream.new (tokenize src)) src

/-! ## The diagnostics engine (`src/util/source.rs`, `src/report/mod.rs`) -/

/-- Rust `str::trim_start` (drop leading Unicode whitespace). -/
def rust_trim_start (s : String) : String :=
  String.mk (s.toList.dropWhile rust_is_whitespace)

/-- `repeat_char` from `src/report/mod.rs`. -/
def repeat_char (c : Char) (n : Nat) : String := String.mk (List.replicate n c)

/-- `SourceBuffer { source }`. -/
structure SourceBuffer where
  source : String
deriving Repr, DecidableEq

/-- `SourceLine { offset, len, line, source }`. -/
structure SourceLine where
  offset : Nat
  len : Nat
  line : Nat
  source : String
deriving Repr, DecidableEq

namespace SourceLine

/-- `offset_relative`: shift a range by the line's offset (Rust `usize`
subtraction; underflow, a panic in debug builds, is truncation here). -/
def offset_relative (l : SourceLine) (range : RangeN) : RangeN :=
  ⟨range.start - l.offset, range.stop - l.offset⟩

/-- `spaces_until`: the underline's left padding — the range's start
relative to the line, shifted by the amount trimmed from the displayed
line, plus one. -/
def spaces_until (l : SourceLine) (range : RangeN) : Nat :=
  let trimmed := rust_trim_start l.source
  let relative := l.offset_relative range
  let trimmed_amt := l.len - trimmed.length
  let start := relative.start - trimmed_amt
  start + 1

def offset_max (l : SourceLine) : Nat := l.offset + l.len

/-- `trim`: replace the displayed text by its trimmed form (`len` is left
unchanged by the source as well). -/
def trim (l : SourceLine) : SourceLine := { l with source := rust_trim_start l.source }

end SourceLine

namespace SourceBuffer

/-- `SourceBuffer::get`: characters of `source` at the indices of the
range, a space for any index past the end. -/
def get (b : SourceBuffer) (rng : RangeN) : String :=
  String.mk ((List.range (rng.stop - rng.start)).map
    (fun k => b.source.toList.getD (rng.start + k) ' '))

/-- The `for (i, c) in chars.enumerate()` loop of `get_lines`: `i` is the
index of the next character, `line_start`/`line_end` delimit the current
line (`line_end` always equals `i`), `line` is the 1-based number of the
current line.  A line feed closes the current line; the end of input closes
the final line. -/
def get_lines_go (b : SourceBuffer) :
    List Char → Nat → Nat → Nat → Nat → List SourceLine
  | [], _i, line_start, line_end, line =>
    [⟨line_start, line_end - line_start, line, b.get ⟨line_start, line_end⟩⟩]
  | c :: cs, i, line_start, line_end, line =>
    if c = '\n' then
      ⟨line_start, line_end - line_start, line, b.get ⟨line_start, line_end⟩⟩ ::
        b.get_lines_go cs (i + 1) (i + 1) (i + 1) (line + 1)
    else
      b.get_lines_go cs (i + 1) line_start (line_end + 1) line

/-- `SourceBuffer::get_lines`. -/
def get_lines (b : SourceBuffer) : List SourceLine :=
  b.get_lines_go b.source.toList 0 0 0 1

/-- `SourceBuffer::get_line_at`: the first line whose
`[offset, offset_max)` interval contains the offset. -/
def get_line_at (b : SourceBuffer) (offset : Nat) : Option SourceLine :=
  (b.get_lines).find? (fun line => offset ≥ line.offset && offset < line.offset_max)

end SourceBuffer

/-- `Snippet { message, inline, source, multiline, range }`. -/
structure Snippet where
  message : String
  inline : String
  source : SourceBuffer
  multiline : Bool
  range : RangeN
deriving Repr, DecidableEq

/-- Rust `Iterator::count` on `start..stop`. -/
def range_count (r : RangeN) : Nat := r.stop - r.start

/-- The `Display` of a right-sized `SizedPadding` (`SizedPadding::new`):
the text followed by `size - text.len()` spaces. -/
def sized_padding (text : String) (size : Nat) : String :=
  text ++ repeat_char ' ' (size - text.length)

namespace Snippet

/-- The `longest` local of `get_print` (and `Report::get_width`): the width
of the largest line number, at least 3. -/
def longest (s : Snippet) : Nat :=
  let l := (toString (s.source.get_lines).length).length
  if l < 3 then 3 else l

/-- `Snippet::get_line` (the source unwraps the lookup; `none` stands for
that panic). -/
def get_line (s : Snippet) : Option Nat :=
  (s.source.get_line_at s.range.start).map SourceLine.line

/-- The `underline` local of `Snippet::get_print`: the gutter spacer and
pipe, `spaces_until` spaces, one `~` per element of the byte range, a
space, and the inline label. -/
def underline_str (s : Snippet) (line : SourceLine) : String :=
  repeat_char ' ' s.longest ++ " |" ++
    (repeat_char ' ' (line.spaces_until s.range) ++
     repeat_char '~' (range_count s.range) ++ " " ++ s.inline)

/-- `Snippet::get_print`: the framed source line, the underline and the
trailing `Err | ---> message` line.  The source `expect`s the line lookup
(a panic when the offset lies in no line), modelled by `none`. -/
def get_print (s : Snippet) : Option String :=
  match s.source.get_line_at s.range.start with
  | none => none
  | some line =>
    let source_code := (line.trim).source
    let line_num := sized_padding (toString line.line) s.longest
    let underline := s.underline_str line
    let message := sized_padding "Err" s.longest ++ " | ---> " ++ s.message
    some (line_num ++ " | " ++ source_code ++ "\n" ++ underline ++ "\n" ++ message)

end Snippet

/-! ## Definitions supporting the claim statements -/

/-- Number of occurrences of a character in a string. -/
def count_char (c : Char) (s : String) : Nat := s.toList.count c

/-- The 1-based number of the line containing a character offset: one more
than the number of line feeds among the first `off` characters. -/
def line_number_at (src : String) (off : Nat) : Nat :=
  1 + (src.toList.take off).count '\n'

/-- No lexical rule of `Cursor::eat` matches at this cursor: every rule
returns `None` without consuming (eat_reserved does not consume even on a
match; its consuming peek is in `eat`). -/
def no_rule_matches (c : Cursor) : Prop :=
  c.eat_whitespace = (none, c) ∧
  c.eat_comment = (none, c) ∧
  c.eat_operator = (none, c) ∧
  c.eat_keyword = (none, c) ∧
  c.eat_boolean = (none, c) ∧
  c.eat_identifier = (none, c) ∧
  c.eat_number = (none, c) ∧
  c.eat_string = (none, c) ∧
  c.eat_value_reserved = (none, c) ∧
  c.eat_reserved = none

/-- The seven alternatives of `parse_expression` in their source order,
each wrapped into its `Expression` variant. -/
def expression_alternatives (fuel : Nat) : List (St → PRes (Option Expression)) :=
  [ fun st => (parse_statement fuel st).map (fun p => (p.1.map .Statement, p.2))
  , fun st => (parse_call_expression fuel st).map (fun p => (p.1.map .Call, p.2))
  , fun st => (parse_member_expression fuel st).map (fun p => (p.1.map .Member, p.2))
  , fun st => (parse_new_expression fuel st).map (fun p => (p.1.map .New, p.2))
  , fun st => (parse_array_expression fuel st).map (fun p => (p.1.map .Array, p.2))
  , fun st => (parse_object_expression fuel st).map (fun p => (p.1.map .Object, p.2))
  , fun st => (parse_literal_expression st).map (fun p => (p.1.map .Literal, p.2)) ]

/-- Run a list of alternatives in order, every one of them, each on the
state left by its predecessors; a later match overwrites the accumulator,
so the final value is the last alternative that matched. -/
def run_alternatives_overwrite :
    List (St → PRes (Option Expression)) → Option Expression → St → PRes (Option Expression)
  | [], left, st => .ok (left, st)
  | alt :: rest, left, st =>
    match alt st with
    | .error e => .error e
    | .ok (r, st1) =>
      run_alternatives_overwrite rest
        (match r with | some e => some e | none => left) st1

/-- Parser state over the token stream of a source string, as
`begin_parse` starts from it. -/
def init_st (src : String) : St :=
  ⟨TokenStream.new (tokenize src), AstBody.new, 0, src⟩

/-- The reason, message and location of a returned `ParserError` (and
`none` for any other outcome). -/
def parser_error_parts : Except PErr AstBody → Option (String × String × RangeN)
  | .error (.parser reason message location _) => some (reason, message, location)
  | _ => none

/-! ## Theorems -/

/-- Helper for C10: folding `combine_ranges_step` from `(0, e)` keeps the
start at `0` (no `usize` is below `0`) and accumulates the maximum end. -/
theorem combine_ranges_foldl (ranges : List RangeN) (e : Nat) :
    ranges.foldl combine_ranges_step (0, e) =
      (0, ranges.foldl (fun acc r => max acc r.stop) e) := by
  induction ranges generalizing e with
  | nil => rfl
  | cons r rs ih =>
    have hstep : combine_ranges_step (0, e) r = (0, max e r.stop) := by
      simp only [combine_ranges_step, Prod.mk.injEq]
      constructor
      · simp
      · rcases Nat.lt_or_ge e r.stop with h | h
        · simp [h, Nat.max_eq_right (Nat.le_of_lt h)]
        · simp [Nat.not_lt.mpr h, Nat.max_eq_left h]
    rw [List.foldl_cons, hstep, ih, List.foldl_cons]

/-- Claim C10: for every list of byte ranges (the empty list included),
`combine_ranges` returns `0..m` with `m` the maximum of the ranges' end
offsets (`0` for the empty list); the start of the result is always `0`
regardless of the input starts, so every location built with
`combine_ranges` begins at offset `0`. -/
theorem combine_ranges_spec (ranges : List RangeN) :
    combine_ranges ranges =
      ⟨0, ranges.foldl (fun acc r => max acc r.stop) 0⟩ := by
  unfold combine_ranges
  rw [combine_ranges_foldl]

/-- Claim C6 counterexample: at A = (line 1, column 5) and
B = (line 2, column 3) the claimed characterisation
(A.line < B.line, or equal lines and A.column ≤ B.column) is violated:
`is_leading` answers `false` although A.line < B.line; moreover neither
position leads the other, so `is_leading` is not total. -/
theorem is_leading_claim_counterexample :
    (¬ ((Position.is_leading ⟨1, 5⟩ ⟨2, 3⟩ = true) ↔
      ((1 : Nat) < 2 ∨ ((1 : Nat) = 2 ∧ (5 : Nat) ≤ 3)))) ∧
    Position.is_leading ⟨1, 5⟩ ⟨2, 3⟩ = false ∧
    Position.is_leading ⟨2, 3⟩ ⟨1, 5⟩ = false := by
  refine ⟨?_, by decide, by decide⟩
  decide

/-- Claim C6 (amended): `A.is_leading(B)` holds iff `A.line ≤ B.line` and
`A.column ≤ B.column` — the product order on (line, column), a partial
order that is not total. -/
theorem is_leading_spec (a b : Position) :
    a.is_leading b = true ↔ a.line ≤ b.line ∧ a.column ≤ b.column := by
  simp only [Position.is_leading]
  by_cases h : a.line > b.line || a.column > b.column
  · simp only [h, if_true]
    simp only [Bool.or_eq_true, decide_eq_true_eq] at h
    constructor
    · intro hf; cases hf
    · intro ⟨h1, h2⟩; omega
  · simp only [h, if_false]
    simp only [Bool.or_eq_true, decide_eq_true_eq, not_or, Nat.not_lt] at h
    simp [h.1, h.2]

/-- Claim C7 counterexample: on the input `"\n"` the cursor is not at end
of input, yet `peek` returns `None` (not `Some '\n'`) while still
consuming the character, and the tracked position is left at (1, 0)
instead of being advanced to the next line. -/
theorem pos_cursor_peek_trailing_lf :
    (PosCursor.new "\n").is_eof = false ∧
    ((PosCursor.new "\n").peek).1 = none ∧
    ((PosCursor.new "\n").peek).2.rest = [] ∧
    ((PosCursor.new "\n").peek).2.pos = ⟨1, 0⟩ := by
  refine ⟨rfl, rfl, rfl, rfl⟩

/-- Claim C7 (amended): for every cursor that is not at end of input,
`peek` consumes exactly one character `x` and records it as `prev`; when
`x` is a line feed that is the last character of the input, `peek` returns
`None` and leaves the position unchanged; for every other remaining
character it returns `Some x` and updates the position (line feed: next
line, column 0; otherwise: next column). -/
theorem pos_cursor_peek_spec (c : PosCursor) (x : Char) (xs : List Char)
    (h : c.rest = x :: xs) :
    ((c.peek).2.rest = xs ∧ (c.peek).2.prev = x) ∧
    ((x = '\n' ∧ xs = []) →
      (c.peek).1 = none ∧ (c.peek).2.pos = c.pos) ∧
    (¬ (x = '\n' ∧ xs = []) →
      (c.peek).1 = some x ∧
      (c.peek).2.pos =
        (if x = '\n' then ⟨c.pos.line + 1, 0⟩ else ⟨c.pos.line, c.pos.column + 1⟩)) := by
  obtain ⟨ilen, rest, prev, pos⟩ := c
  simp only at h
  subst h
  simp only [PosCursor.peek, PosCursor.is_eof, is_line_ending]
  by_cases hx : x = '\n'
  · by_cases hxs : xs = []
    · subst hx; subst hxs
      simp
    · subst hx
      simp [hxs, List.isEmpty_iff]
  · simp [hx]

/-- Witness for the amended C7 at the concrete cursor over `"ab"`. -/
theorem pos_cursor_peek_spec_witness :
    (PosCursor.new "ab").rest = 'a' :: ['b'] ∧
    ((((PosCursor.new "ab").peek).2.rest = ['b'] ∧
      ((PosCursor.new "ab").peek).2.prev = 'a') ∧
    (('a' = '\n' ∧ ['b'] = List.nil) →
      ((PosCursor.new "ab").peek).1 = none ∧
      ((PosCursor.new "ab").peek).2.pos = (PosCursor.new "ab").pos) ∧
    (¬ ('a' = '\n' ∧ ['b'] = List.nil) →
      ((PosCursor.new "ab").peek).1 = some 'a' ∧
      ((PosCursor.new "ab").peek).2.pos =
        (if 'a' = '\n' then ⟨(PosCursor.new "ab").pos.line + 1, 0⟩
         else ⟨(PosCursor.new "ab").pos.line, (PosCursor.new "ab").pos.column + 1⟩))) :=
  ⟨rfl, pos_cursor_peek_spec (PosCursor.new "ab") 'a' ['b'] rfl⟩

/-- Claim C2: parsing the source `1 + 2 * 3` yields the single expression
`Operation(Literal 1, Plus, Operation(Literal 2, Star, Literal 3))`: after
the left operand and the operator, the right operand is parsed as a full
expression again, so the chain nests to the right. -/
theorem parse_one_plus_two_times_three :
    (parse_source "1 + 2 * 3").map (fun b => b.program.map Node.inner) =
      .ok [NodeKind.Expression (.Operation (.mk (.Literal (.mk "1" none))
        (.Operation (.mk (.Literal (.mk "2" none)) (.Literal (.mk "3" none))
          (.BinOp .Star)))
        (.BinOp .Plus)))] := rfl

/-- Claim C3 (evaluation at the failing input): parsing
`const y: int | string = "a";` does not produce `Statement::Const` with the
union type — `parse_variable` invokes `parse_type_kind` directly after the
colon without skipping whitespace, `parse_type_kind` sees the whitespace
token and returns no match, and the parser raises the fail-fast report
"Expected type statement to follow a variable declaration with a colon."
at the whitespace token `8..9`. -/
theorem const_union_decl_fatal_report :
    parse_source "const y: int | string = \"a\";" =
      .error (.report ⟨8, 9⟩
        "Expected type statement to follow a variable declaration with a colon."
        (some "A type statement is expected here.")) := rfl

/-- Claim C4 (evaluation at the failing input): parsing `[1, 2,` raises no
error at all — `parse_array_expression`'s loop consumes the whole stream
and falls out to its trailing `Ok(None)`, discarding the elements, and the
overall parse returns an empty AST: the unterminated array is silently
accepted rather than reported. -/
theorem unterminated_array_silently_succeeds :
    parse_source "[1, 2," = .ok (AstBody.mk []) := rfl

/-- Claim C5 (evaluation at the failing input): `"namespace"` is a keyword
of the table (`from_string` maps it) but is longer than
`MAX_KEYWORD_LENGTH`, so `eat_keyword` can never match it; the tokenizer
lexes the leading word of `namespace a\b\c;` as an `Identifier` token, and
parsing then fails with the recoverable error "Unexpected token: Backslash"
instead of producing `Statement::Namespace`. -/
theorem namespace_decl_fails :
    (tokenize "namespace a\\b\\c;").head?.map Token.kind = some TokenType.Identifier ∧
    KeyWord.from_string "namespace" = some KeyWord.Namespace ∧
    MAX_KEYWORD_LENGTH < "namespace".length ∧
    parser_error_parts (parse_source "namespace a\\b\\c;") =
      some ("Unexpected token: Backslash",
        "Unable to proceed parsing. This token was unexpected at this time.",
        ⟨0, 12⟩) :=
  ⟨rfl, rfl, by decide, rfl⟩

/-- Claim C1 counterexample: on the token stream of `f()x` the first
matching alternative of `parse_expression` is the call alternative
(`parse_statement` matches nothing, `parse_call_expression` returns
`Call("f", [])`), yet `parse_expression` returns `Literal "x"`: the later
alternatives are attempted on the tokens remaining after the call matched,
and the literal alternative overwrites the call's result. -/
theorem parse_expression_not_first_match :
    (parse_statement 32 (init_st "f()x")).map Prod.fst = .ok none ∧
    (parse_call_expression 32 (init_st "f()x")).map Prod.fst =
      .ok (some (Call.mk "f" [])) ∧
    (parse_expression 32 (init_st "f()x")).map Prod.fst =
      .ok (some (.Literal (.mk "x" none))) :=
  ⟨rfl, rfl, rfl⟩

/-- Claim C8: `tokenize` is total by construction — the embedding returns a
token list for every input string and has no error outcome — and when no
lexical rule matches at the cursor's position, `eat` consumes exactly one
character and emits no token, so the tokenizer silently drops the
character and continues: no diagnostic of any kind is produced. -/
theorem tokenize_silent_drop (c : Cursor) (fuel : Nat)
    (heof : c.is_eof = false) (h : no_rule_matches c) :
    c.eat = (none, (c.peek).2) ∧
    tokenize_go (fuel + 1) c = tokenize_go fuel (c.peek).2 := by
  obtain ⟨h1, h2, h3, h4, h5, h6, h7, h8, h9, h10⟩ := h
  have heat : c.eat = (none, (c.peek).2) := by
    rw [Cursor.eat.eq_def, h1]
    dsimp only
    rw [h2]
    dsimp only
    rw [h3]
    dsimp only
    rw [h4]
    dsimp only
    rw [h5]
    dsimp only
    rw [h6]
    dsimp only
    rw [h7]
    dsimp only
    rw [h8]
    dsimp only
    rw [h9]
    dsimp only
    rw [h10]
  refine ⟨heat, ?_⟩
  simp only [tokenize_go, heof, Bool.false_eq_true, if_false, heat]

/-- Witness for C8 at the concrete cursor over `"?x"` (no rule matches the
character `?`). -/
theorem tokenize_silent_drop_witness :
    (Cursor.new "?x").is_eof = false ∧ no_rule_matches (Cursor.new "?x") ∧
    ((Cursor.new "?x").eat = (none, ((Cursor.new "?x").peek).2) ∧
      tokenize_go 6 (Cursor.new "?x") = tokenize_go 5 ((Cursor.new "?x").peek).2) :=
  ⟨rfl, ⟨rfl, rfl, rfl, rfl, rfl, rfl, rfl, rfl, rfl, rfl⟩,
    tokenize_silent_drop (Cursor.new "?x") 5 rfl
      ⟨rfl, rfl, rfl, rfl, rfl, rfl, rfl, rfl, rfl, rfl⟩⟩

/-- Helper for C1: overwriting with a mapped optional value is the same as
matching the unmapped one. -/
theorem overwrite_map {α : Type} (r : Option α) (f : α → Expression)
    (left : Option Expression) :
    (match r.map f with | some e => some e | none => left) =
      (match r with | some s => some (f s) | none => left) := by
  cases r <;> rfl

/-- Claim C1 (amended): `parse_expression` runs its alternatives in the
fixed order statement, call, member, new, array, object, literal, but it
does not stop at the first match: every later alternative is still
attempted, on the token stream left by its predecessors, and a later match
overwrites the earlier result, so the expression handed to the
trailing-operator step is that of the **last** matching alternative (which
coincides with the first only when no later alternative matches the
remaining tokens). -/
theorem parse_expression_runs_all_alternatives (fuel : Nat) (st : St) :
    parse_expression (fuel + 1) st =
      pbind (run_alternatives_overwrite (expression_alternatives fuel) none st)
        (parse_expression_tail fuel) := by
  show parse_expression_F (parserFns fuel) st = _
  unfold parse_expression_F
  simp only [expression_alternatives, run_alternatives_overwrite,
    parse_statement, parse_call_expression, parse_member_expression,
    parse_new_expression, parse_array_expression, parse_object_expression,
    parse_expression_tail, pbind]
  cases h1 : (parserFns fuel).parse_statement st with
  | error e => simp [pbind, Except.map]
  | ok p1 =>
    obtain ⟨r1, st1⟩ := p1
    simp only [pbind, Except.map, overwrite_map]
    cases h2 : (parserFns fuel).parse_call_expression st1 with
    | error e => simp [pbind, Except.map]
    | ok p2 =>
      obtain ⟨r2, st2⟩ := p2
      simp only [pbind, Except.map, overwrite_map]
      cases h3 : (parserFns fuel).parse_member_expression st2 with
      | error e => simp [pbind, Except.map]
      | ok p3 =>
        obtain ⟨r3, st3⟩ := p3
        simp only [pbind, Except.map, overwrite_map]
        cases h4 : (parserFns fuel).parse_new_expression st3 with
        | error e => simp [pbind, Except.map]
        | ok p4 =>
          obtain ⟨r4, st4⟩ := p4
          simp only [pbind, Except.map, overwrite_map]
          cases h5 : (parserFns fuel).parse_array_expression st4 with
          | error e => simp [pbind, Except.map]
          | ok p5 =>
            obtain ⟨r5, st5⟩ := p5
            simp only [pbind, Except.map, overwrite_map]
            cases h6 : (parserFns fuel).parse_object_expression st5 with
            | error e => simp [pbind, Except.map]
            | ok p6 =>
              obtain ⟨r6, st6⟩ := p6
              simp only [pbind, Except.map, overwrite_map]
              cases h7 : parse_literal_expression st6 with
              | error e => simp [pbind, Except.map]
              | ok p7 =>
                obtain ⟨r7, st7⟩ := p7
                simp only [pbind, Except.map, overwrite_map]
                cases r1 <;> cases r2 <;> cases r3 <;> cases r4 <;>
                  cases r5 <;> cases r6 <;> cases r7 <;> rfl

/-- Helper for C9: string concatenation adds character counts. -/
theorem count_char_append (c : Char) (a b : String) :
    count_char c (a ++ b) = count_char c a + count_char c b := by
  simp [count_char, String.toList, List.count_append]

/-- Helper for C9: a repeated character contributes its full count, zero
for any other character. -/
theorem count_char_repeat (c d : Char) (n : Nat) :
    count_char c (repeat_char d n) = if c = d then n else 0 := by
  simp only [count_char, repeat_char, String.toList, List.count_replicate]
  by_cases h : c = d
  · simp [h]
  · have h2 : ¬ d = c := fun hdc => h hdc.symm
    simp [h, h2]

/-- Helper for C9: extending a prefix by one character adds that
character's count. -/
theorem count_take_succ (l : List Char) (k : Nat) :
    (l.take (k + 1)).count '\n' =
      (l.take k).count '\n' + (l[k]?.toList.count '\n') := by
  rw [List.take_succ, List.count_append]

/-- Helper for C9: the line-feed count of a prefix is unchanged across a
stretch free of line feeds. -/
theorem count_take_const (l : List Char) (a : Nat) :
    ∀ b, a ≤ b →
    (∀ j, a ≤ j → j < b → ∀ c, l[j]? = some c → c ≠ '\n') →
    (l.take b).count '\n' = (l.take a).count '\n' := by
  intro b
  induction b with
  | zero => intro hab _; interval_cases a; rfl
  | succ b ih =>
    intro hab h
    rcases Nat.lt_or_ge a (b + 1) with hlt | hge
    · have hab' : a ≤ b := Nat.lt_succ_iff.mp hlt
      rw [count_take_succ,
        ih hab' (fun j hj1 hj2 => h j hj1 (Nat.lt_succ_of_lt hj2))]
      cases hc : l[b]? with
      | none => simp
      | some c =>
        have hne := h b hab' (Nat.lt_succ_self b) c hc
        simp [List.count_cons, hne]
    · have : a = b + 1 := Nat.le_antisymm hab hge
      rw [this]

/-- Helper for C9, the loop invariant of `get_lines_go`: when the loop is
entered with `cs` the tail of the source at index `i`, the current line
starting at `line_start ≤ i` with no line feed in `[line_start, i)`, and
`line` one more than the number of line feeds before `line_start`, then
every produced line's number is, at every offset the line covers, one more
than the number of line feeds before that offset. -/
theorem get_lines_go_spec (b : SourceBuffer) :
    ∀ (cs : List Char) (i line_start line : Nat),
      cs = b.source.toList.drop i →
      line_start ≤ i →
      1 + (b.source.toList.take line_start).count '\n' = line →
      (∀ j, line_start ≤ j → j < i → ∀ ch, b.source.toList[j]? = some ch → ch ≠ '\n') →
      ∀ l ∈ b.get_lines_go cs i line_start i line,
        ∀ off, l.offset ≤ off → off < l.offset + l.len →
          l.line = line_number_at b.source off := by
  intro cs
  induction cs with
  | nil =>
    intro i line_start line _hdrop hle hline hseg l hl off hoff1 hoff2
    simp only [SourceBuffer.get_lines_go, List.mem_singleton] at hl
    subst hl
    simp only at hoff1 hoff2 ⊢
    have hoffi : off < i := by omega
    have hcount : (b.source.toList.take off).count '\n' =
        (b.source.toList.take line_start).count '\n' :=
      count_take_const _ _ _ hoff1
        (fun j hj1 hj2 => hseg j hj1 (Nat.lt_trans hj2 hoffi))
    simp only [line_number_at]
    omega
  | cons c cs ih =>
    intro i line_start line hdrop hle hline hseg l hl off hoff1 hoff2
    have hgeti : b.source.toList[i]? = some c := by
      have h0 : (b.source.toList.drop i)[0]? = some c := by rw [← hdrop]; simp
      rwa [List.getElem?_drop, Nat.add_zero] at h0
    have hdrop' : cs = b.source.toList.drop (i + 1) := by
      have h1 : b.source.toList.drop (i + 1) = List.drop 1 (b.source.toList.drop i) := by
        rw [List.drop_drop, Nat.add_comm]
      rw [h1, ← hdrop]
      rfl
    simp only [SourceBuffer.get_lines_go] at hl
    by_cases hc : c = '\n'
    · rw [if_pos hc] at hl
      rcases List.mem_cons.mp hl with hl | hl
      · subst hl
        simp only at hoff1 hoff2 ⊢
        have hoffi : off < i := by omega
        have hcount : (b.source.toList.take off).count '\n' =
            (b.source.toList.take line_start).count '\n' :=
          count_take_const _ _ _ hoff1
            (fun j hj1 hj2 => hseg j hj1 (Nat.lt_trans hj2 hoffi))
        simp only [line_number_at]
        omega
      · refine ih (i + 1) (i + 1) (line + 1) hdrop' (Nat.le_refl _) ?_
          (fun j hj1 hj2 => absurd (Nat.lt_of_le_of_lt hj1 hj2) (Nat.lt_irrefl _))
          l hl off hoff1 hoff2
        have hcounti : (b.source.toList.take i).count '\n' =
            (b.source.toList.take line_start).count '\n' :=
          count_take_const _ _ _ hle hseg
        have hstep := count_take_succ b.source.toList i
        rw [hgeti] at hstep
        simp only [hc, Option.toList_some, List.count_cons_self, List.count_nil] at hstep
        omega
    · rw [if_neg hc] at hl
      refine ih (i + 1) line_start line hdrop' (Nat.le_succ_of_le hle) hline
        ?_ l hl off hoff1 hoff2
      intro j hj1 hj2 ch hch
      rcases Nat.lt_or_ge j i with hji | hji
      · exact hseg j hj1 hji ch hch
      · have : j = i := by omega
        subst this
        rw [hgeti] at hch
        cases hch
        exact hc

/-- Claim C9: for every source string and byte range whose start offset
lies inside some line of the source, the rendered snippet's underline holds
exactly `range.end - range.start` tilde characters (beyond any tildes of
the caller-supplied inline label, which follows the underline run), and its
gutter line number is the 1-based number of the line containing
`range.start`. -/
theorem snippet_underline_and_line_number (s : Snippet) (line : SourceLine)
    (h : s.source.get_line_at s.range.start = some line) :
    count_char '~' (s.underline_str line) =
      (s.range.stop - s.range.start) + count_char '~' s.inline ∧
    s.get_line = some line.line ∧
    line.line = line_number_at s.source.source s.range.start := by
  refine ⟨?_, ?_, ?_⟩
  · have h2 : count_char '~' " |" = 0 := by decide
    have h3 : count_char '~' " " = 0 := by decide
    simp only [Snippet.underline_str, count_char_append, count_char_repeat,
      range_count, h2, h3, if_neg (by decide : ¬ ('~' : Char) = ' '),
      if_pos (rfl : ('~' : Char) = '~'), if_true]
    omega
  · simp [Snippet.get_line, h]
  · have hmem : line ∈ s.source.get_lines := List.mem_of_find?_eq_some h
    have hpred := List.find?_some h
    simp only [Bool.and_eq_true, decide_eq_true_eq, ge_iff_le,
      SourceLine.offset_max] at hpred
    exact get_lines_go_spec s.source s.source.source.toList 0 0 1 rfl
      (Nat.le_refl 0) rfl
      (fun j _ hj2 => absurd hj2 (Nat.not_lt_zero j))
      line hmem s.range.start hpred.1 hpred.2

/-- Witness for C9 at the source `"ab\ncdef\ng"` and range `5..7`: the
start offset 5 lies in the second line `cdef` (offset 3, length 4), the
underline holds 2 tildes, and the gutter number is 2. -/
theorem snippet_spec_witness :
    (Snippet.mk "msg" "lbl" ⟨"ab\ncdef\ng"⟩ false ⟨5, 7⟩).source.get_line_at
      (Snippet.mk "msg" "lbl" ⟨"ab\ncdef\ng"⟩ false ⟨5, 7⟩).range.start =
        some ⟨3, 4, 2, "cdef"⟩ ∧
    (count_char '~' ((Snippet.mk "msg" "lbl" ⟨"ab\ncdef\ng"⟩ false ⟨5, 7⟩).underline_str
        ⟨3, 4, 2, "cdef"⟩) = (7 - 5) + count_char '~' "lbl" ∧
      (Snippet.mk "msg" "lbl" ⟨"ab\ncdef\ng"⟩ false ⟨5, 7⟩).get_line = some 2 ∧
      (2 : Nat) = line_number_at "ab\ncdef\ng" 5) :=
  ⟨rfl, snippet_underline_and_line_number
    (Snippet.mk "msg" "lbl" ⟨"ab\ncdef\ng"⟩ false ⟨5, 7⟩) ⟨3, 4, 2, "cdef"⟩ rfl⟩

end Surn
